import Mathlib

/-
  Verification development for the keycard-qt client library
  (secure-channel protocol, command set and path/APDU handling).

  Byte strings are modelled as `List Nat` with every entry a value
  below 256; machine arithmetic is `Nat` with explicit `% 2 ^ w`
  reductions where the C++ code truncates.  QByteArray becomes
  `List Nat`, QString becomes `List Char`.

  The AES-256 block cipher and the SHA-256 / SHA-512 hash functions
  used by the library through OpenSSL / QCryptographicHash are given
  executable reference definitions (FIPS 197 / FIPS 180-4) so that the
  secure-channel pipeline can be evaluated on concrete inputs.
-/

namespace Keycard

/-- All entries of a byte string are below 256. -/
def isBytes (l : List Nat) : Prop := ∀ b ∈ l, b < 256

/-- Bytewise xor of two equal-length byte strings. -/
def xorBytes (a b : List Nat) : List Nat := List.zipWith (fun x y => x ^^^ y) a b

/-- Big-endian 4-byte serialization of a 32-bit value (QDataStream BigEndian). -/
def be32 (n : Nat) : List Nat :=
  [(n >>> 24) % 256, (n >>> 16) % 256, (n >>> 8) % 256, n % 256]

/-- Split a byte string into consecutive `n`-byte chunks (fuel-driven so that
the kernel can evaluate it). -/
def chunksAux (n : Nat) : Nat → List Nat → List (List Nat)
  | 0, _ => []
  | _, [] => []
  | fuel + 1, l => l.take n :: chunksAux n fuel (l.drop n)

/-- Split a byte string into consecutive `n`-byte chunks. -/
def chunksN (n : Nat) (l : List Nat) : List (List Nat) := chunksAux n l.length l

/-- Split a byte string into consecutive 16-byte chunks. -/
def chunks16 (l : List Nat) : List (List Nat) := chunksN 16 l

/-! ### AES-256 (FIPS 197) -/

/-- The AES S-box (FIPS 197, figure 7). -/
def sbox : List Nat := [
  0x63, 0x7c, 0x77, 0x7b, 0xf2, 0x6b, 0x6f, 0xc5, 0x30, 0x01, 0x67, 0x2b, 0xfe, 0xd7, 0xab, 0x76,
  0xca, 0x82, 0xc9, 0x7d, 0xfa, 0x59, 0x47, 0xf0, 0xad, 0xd4, 0xa2, 0xaf, 0x9c, 0xa4, 0x72, 0xc0,
  0xb7, 0xfd, 0x93, 0x26, 0x36, 0x3f, 0xf7, 0xcc, 0x34, 0xa5, 0xe5, 0xf1, 0x71, 0xd8, 0x31, 0x15,
  0x04, 0xc7, 0x23, 0xc3, 0x18, 0x96, 0x05, 0x9a, 0x07, 0x12, 0x80, 0xe2, 0xeb, 0x27, 0xb2, 0x75,
  0x09, 0x83, 0x2c, 0x1a, 0x1b, 0x6e, 0x5a, 0xa0, 0x52, 0x3b, 0xd6, 0xb3, 0x29, 0xe3, 0x2f, 0x84,
  0x53, 0xd1, 0x00, 0xed, 0x20, 0xfc, 0xb1, 0x5b, 0x6a, 0xcb, 0xbe, 0x39, 0x4a, 0x4c, 0x58, 0xcf,
  0xd0, 0xef, 0xaa, 0xfb, 0x43, 0x4d, 0x33, 0x85, 0x45, 0xf9, 0x02, 0x7f, 0x50, 0x3c, 0x9f, 0xa8,
  0x51, 0xa3, 0x40, 0x8f, 0x92, 0x9d, 0x38, 0xf5, 0xbc, 0xb6, 0xda, 0x21, 0x10, 0xff, 0xf3, 0xd2,
  0xcd, 0x0c, 0x13, 0xec, 0x5f, 0x97, 0x44, 0x17, 0xc4, 0xa7, 0x7e, 0x3d, 0x64, 0x5d, 0x19, 0x73,
  0x60, 0x81, 0x4f, 0xdc, 0x22, 0x2a, 0x90, 0x88, 0x46, 0xee, 0xb8, 0x14, 0xde, 0x5e, 0x0b, 0xdb,
  0xe0, 0x32, 0x3a, 0x0a, 0x49, 0x06, 0x24, 0x5c, 0xc2, 0xd3, 0xac, 0x62, 0x91, 0x95, 0xe4, 0x79,
  0xe7, 0xc8, 0x37, 0x6d, 0x8d, 0xd5, 0x4e, 0xa9, 0x6c, 0x56, 0xf4, 0xea, 0x65, 0x7a, 0xae, 0x08,
  0xba, 0x78, 0x25, 0x2e, 0x1c, 0xa6, 0xb4, 0xc6, 0xe8, 0xdd, 0x74, 0x1f, 0x4b, 0xbd, 0x8b, 0x8a,
  0x70, 0x3e, 0xb5, 0x66, 0x48, 0x03, 0xf6, 0x0e, 0x61, 0x35, 0x57, 0xb9, 0x86, 0xc1, 0x1d, 0x9e,
  0xe1, 0xf8, 0x98, 0x11, 0x69, 0xd9, 0x8e, 0x94, 0x9b, 0x1e, 0x87, 0xe9, 0xce, 0x55, 0x28, 0xdf,
  0x8c, 0xa1, 0x89, 0x0d, 0xbf, 0xe6, 0x42, 0x68, 0x41, 0x99, 0x2d, 0x0f, 0xb0, 0x54, 0xbb, 0x16
]

/-- The inverse AES S-box. -/
def invSbox : List Nat := [
  0x52, 0x09, 0x6a, 0xd5, 0x30, 0x36, 0xa5, 0x38, 0xbf, 0x40, 0xa3, 0x9e, 0x81, 0xf3, 0xd7, 0xfb,
  0x7c, 0xe3, 0x39, 0x82, 0x9b, 0x2f, 0xff, 0x87, 0x34, 0x8e, 0x43, 0x44, 0xc4, 0xde, 0xe9, 0xcb,
  0x54, 0x7b, 0x94, 0x32, 0xa6, 0xc2, 0x23, 0x3d, 0xee, 0x4c, 0x95, 0x0b, 0x42, 0xfa, 0xc3, 0x4e,
  0x08, 0x2e, 0xa1, 0x66, 0x28, 0xd9, 0x24, 0xb2, 0x76, 0x5b, 0xa2, 0x49, 0x6d, 0x8b, 0xd1, 0x25,
  0x72, 0xf8, 0xf6, 0x64, 0x86, 0x68, 0x98, 0x16, 0xd4, 0xa4, 0x5c, 0xcc, 0x5d, 0x65, 0xb6, 0x92,
  0x6c, 0x70, 0x48, 0x50, 0xfd, 0xed, 0xb9, 0xda, 0x5e, 0x15, 0x46, 0x57, 0xa7, 0x8d, 0x9d, 0x84,
  0x90, 0xd8, 0xab, 0x00, 0x8c, 0xbc, 0xd3, 0x0a, 0xf7, 0xe4, 0x58, 0x05, 0xb8, 0xb3, 0x45, 0x06,
  0xd0, 0x2c, 0x1e, 0x8f, 0xca, 0x3f, 0x0f, 0x02, 0xc1, 0xaf, 0xbd, 0x03, 0x01, 0x13, 0x8a, 0x6b,
  0x3a, 0x91, 0x11, 0x41, 0x4f, 0x67, 0xdc, 0xea, 0x97, 0xf2, 0xcf, 0xce, 0xf0, 0xb4, 0xe6, 0x73,
  0x96, 0xac, 0x74, 0x22, 0xe7, 0xad, 0x35, 0x85, 0xe2, 0xf9, 0x37, 0xe8, 0x1c, 0x75, 0xdf, 0x6e,
  0x47, 0xf1, 0x1a, 0x71, 0x1d, 0x29, 0xc5, 0x89, 0x6f, 0xb7, 0x62, 0x0e, 0xaa, 0x18, 0xbe, 0x1b,
  0xfc, 0x56, 0x3e, 0x4b, 0xc6, 0xd2, 0x79, 0x20, 0x9a, 0xdb, 0xc0, 0xfe, 0x78, 0xcd, 0x5a, 0xf4,
  0x1f, 0xdd, 0xa8, 0x33, 0x88, 0x07, 0xc7, 0x31, 0xb1, 0x12, 0x10, 0x59, 0x27, 0x80, 0xec, 0x5f,
  0x60, 0x51, 0x7f, 0xa9, 0x19, 0xb5, 0x4a, 0x0d, 0x2d, 0xe5, 0x7a, 0x9f, 0x93, 0xc9, 0x9c, 0xef,
  0xa0, 0xe0, 0x3b, 0x4d, 0xae, 0x2a, 0xf5, 0xb0, 0xc8, 0xeb, 0xbb, 0x3c, 0x83, 0x53, 0x99, 0x61,
  0x17, 0x2b, 0x04, 0x7e, 0xba, 0x77, 0xd6, 0x26, 0xe1, 0x69, 0x14, 0x63, 0x55, 0x21, 0x0c, 0x7d
]

/-- S-box lookup. -/
def sb (n : Nat) : Nat := sbox.getD n 0

/-- Inverse S-box lookup. -/
def isb (n : Nat) : Nat := invSbox.getD n 0

/-- Multiplication by x in GF(2 ^ 8) modulo the AES polynomial. -/
def xtime (b : Nat) : Nat :=
  let b2 := b * 2
  if 256 ≤ b2 then (b2 - 256) ^^^ 0x1b else b2

def gmul2 (b : Nat) : Nat := xtime b
def gmul3 (b : Nat) : Nat := xtime b ^^^ b
def gmul9 (b : Nat) : Nat := xtime (xtime (xtime b)) ^^^ b
def gmul11 (b : Nat) : Nat := xtime (xtime (xtime b)) ^^^ xtime b ^^^ b
def gmul13 (b : Nat) : Nat := xtime (xtime (xtime b)) ^^^ xtime (xtime b) ^^^ b
def gmul14 (b : Nat) : Nat := xtime (xtime (xtime b)) ^^^ xtime (xtime b) ^^^ xtime b

/-- Byte `i` of a 16-byte state (column-major AES state, `s[r][c] = state[4*c+r]`). -/
def stByte (s : List Nat) (i : Nat) : Nat := s.getD i 0

/-- AES SubBytes on a 16-byte state. -/
def subBytes (s : List Nat) : List Nat :=
  [sb (stByte s 0), sb (stByte s 1), sb (stByte s 2), sb (stByte s 3),
   sb (stByte s 4), sb (stByte s 5), sb (stByte s 6), sb (stByte s 7),
   sb (stByte s 8), sb (stByte s 9), sb (stByte s 10), sb (stByte s 11),
   sb (stByte s 12), sb (stByte s 13), sb (stByte s 14), sb (stByte s 15)]

/-- AES InvSubBytes on a 16-byte state. -/
def invSubBytes (s : List Nat) : List Nat :=
  [isb (stByte s 0), isb (stByte s 1), isb (stByte s 2), isb (stByte s 3),
   isb (stByte s 4), isb (stByte s 5), isb (stByte s 6), isb (stByte s 7),
   isb (stByte s 8), isb (stByte s 9), isb (stByte s 10), isb (stByte s 11),
   isb (stByte s 12), isb (stByte s 13), isb (stByte s 14), isb (stByte s 15)]

/-- AES ShiftRows on a 16-byte state. -/
def shiftRows (s : List Nat) : List Nat :=
  [stByte s 0, stByte s 5, stByte s 10, stByte s 15,
   stByte s 4, stByte s 9, stByte s 14, stByte s 3,
   stByte s 8, stByte s 13, stByte s 2, stByte s 7,
   stByte s 12, stByte s 1, stByte s 6, stByte s 11]

/-- AES InvShiftRows on a 16-byte state. -/
def invShiftRows (s : List Nat) : List Nat :=
  [stByte s 0, stByte s 13, stByte s 10, stByte s 7,
   stByte s 4, stByte s 1, stByte s 14, stByte s 11,
   stByte s 8, stByte s 5, stByte s 2, stByte s 15,
   stByte s 12, stByte s 9, stByte s 6, stByte s 3]

/-- One MixColumns column transform. -/
def mixColumn (a b c d : Nat) : List Nat :=
  [gmul2 a ^^^ gmul3 b ^^^ c ^^^ d,
   a ^^^ gmul2 b ^^^ gmul3 c ^^^ d,
   a ^^^ b ^^^ gmul2 c ^^^ gmul3 d,
   gmul3 a ^^^ b ^^^ c ^^^ gmul2 d]

/-- AES MixColumns on a 16-byte state. -/
def mixColumns (s : List Nat) : List Nat :=
  mixColumn (stByte s 0) (stByte s 1) (stByte s 2) (stByte s 3) ++
  mixColumn (stByte s 4) (stByte s 5) (stByte s 6) (stByte s 7) ++
  mixColumn (stByte s 8) (stByte s 9) (stByte s 10) (stByte s 11) ++
  mixColumn (stByte s 12) (stByte s 13) (stByte s 14) (stByte s 15)

/-- One InvMixColumns column transform. -/
def invMixColumn (a b c d : Nat) : List Nat :=
  [gmul14 a ^^^ gmul11 b ^^^ gmul13 c ^^^ gmul9 d,
   gmul9 a ^^^ gmul14 b ^^^ gmul11 c ^^^ gmul13 d,
   gmul13 a ^^^ gmul9 b ^^^ gmul14 c ^^^ gmul11 d,
   gmul11 a ^^^ gmul13 b ^^^ gmul9 c ^^^ gmul14 d]

/-- AES InvMixColumns on a 16-byte state. -/
def invMixColumns (s : List Nat) : List Nat :=
  invMixColumn (stByte s 0) (stByte s 1) (stByte s 2) (stByte s 3) ++
  invMixColumn (stByte s 4) (stByte s 5) (stByte s 6) (stByte s 7) ++
  invMixColumn (stByte s 8) (stByte s 9) (stByte s 10) (stByte s 11) ++
  invMixColumn (stByte s 12) (stByte s 13) (stByte s 14) (stByte s 15)

/-- AES AddRoundKey on a 16-byte state. -/
def addRoundKey (rk s : List Nat) : List Nat :=
  [stByte s 0 ^^^ stByte rk 0, stByte s 1 ^^^ stByte rk 1,
   stByte s 2 ^^^ stByte rk 2, stByte s 3 ^^^ stByte rk 3,
   stByte s 4 ^^^ stByte rk 4, stByte s 5 ^^^ stByte rk 5,
   stByte s 6 ^^^ stByte rk 6, stByte s 7 ^^^ stByte rk 7,
   stByte s 8 ^^^ stByte rk 8, stByte s 9 ^^^ stByte rk 9,
   stByte s 10 ^^^ stByte rk 10, stByte s 11 ^^^ stByte rk 11,
   stByte s 12 ^^^ stByte rk 12, stByte s 13 ^^^ stByte rk 13,
   stByte s 14 ^^^ stByte rk 14, stByte s 15 ^^^ stByte rk 15]

/-- A 4-byte key-schedule word: rotate left by one byte. -/
def rotWord (w : List Nat) : List Nat :=
  [w.getD 1 0, w.getD 2 0, w.getD 3 0, w.getD 0 0]

/-- Apply the S-box to every byte of a key-schedule word. -/
def subWord (w : List Nat) : List Nat :=
  [sb (w.getD 0 0), sb (w.getD 1 0), sb (w.getD 2 0), sb (w.getD 3 0)]

/-- Xor two 4-byte words. -/
def xorWord (a b : List Nat) : List Nat :=
  [a.getD 0 0 ^^^ b.getD 0 0, a.getD 1 0 ^^^ b.getD 1 0,
   a.getD 2 0 ^^^ b.getD 2 0, a.getD 3 0 ^^^ b.getD 3 0]

/-- AES-256 key-expansion step: extends the reversed word list (latest word
first) by `fuel` further words.  `i` is the index of the next word. -/
def expandAux : Nat → Nat → Nat → List (List Nat) → List (List Nat)
  | 0, _, _, ws => ws
  | fuel + 1, i, rcon, ws =>
    let wPrev := ws.getD 0 []
    let wBack := ws.getD 7 []
    let temp :=
      if i % 8 = 0 then xorWord (subWord (rotWord wPrev)) [rcon, 0, 0, 0]
      else if i % 8 = 4 then subWord wPrev
      else wPrev
    let rcon' := if i % 8 = 0 then xtime rcon else rcon
    expandAux fuel (i + 1) rcon' (xorWord wBack temp :: ws)

/-- AES-256 key expansion: a 32-byte key to 15 round keys of 16 bytes. -/
def expandKey256 (key : List Nat) : List (List Nat) :=
  let w0 := (List.range 8).map (fun i => (key.drop (4 * i)).take 4)
  let wsRev := expandAux 52 8 1 w0.reverse
  let ws := wsRev.reverse
  (List.range 15).map (fun r =>
    ws.getD (4 * r) [] ++ ws.getD (4 * r + 1) [] ++
    ws.getD (4 * r + 2) [] ++ ws.getD (4 * r + 3) [])

/-- AES-256 full-round loop of the block cipher. -/
def encRounds : Nat → List (List Nat) → List Nat → List Nat
  | 0, _, s => s
  | n + 1, rks, s =>
    let r := 13 - n
    encRounds n rks (addRoundKey (rks.getD r []) (mixColumns (shiftRows (subBytes s))))

/-- AES-256 block encryption (FIPS 197). -/
def encryptBlock (rks : List (List Nat)) (block : List Nat) : List Nat :=
  let s := addRoundKey (rks.getD 0 []) block
  let s := encRounds 13 rks s
  addRoundKey (rks.getD 14 []) (shiftRows (subBytes s))

/-- AES-256 inverse-cipher round loop. -/
def decRounds : Nat → List (List Nat) → List Nat → List Nat
  | 0, _, s => s
  | n + 1, rks, s =>
    let r := n + 1
    decRounds n rks (invMixColumns (addRoundKey (rks.getD r []) (invSubBytes (invShiftRows s))))

/-- AES-256 block decryption (FIPS 197 inverse cipher). -/
def decryptBlock (rks : List (List Nat)) (block : List Nat) : List Nat :=
  let s := addRoundKey (rks.getD 14 []) block
  let s := decRounds 13 rks s
  addRoundKey (rks.getD 0 []) (invSubBytes (invShiftRows s))

/-- CBC encryption over 16-byte chunks. -/
def cbcEncAux (rks : List (List Nat)) : List Nat → List (List Nat) → List (List Nat)
  | _, [] => []
  | prev, b :: bs =>
    let c := encryptBlock rks (xorBytes prev b)
    c :: cbcEncAux rks c bs

/-- AES-256-CBC encryption with no padding (EVP_aes_256_cbc, padding disabled);
the input length is expected to be a multiple of 16. -/
def aes256CbcEncrypt (key iv data : List Nat) : List Nat :=
  (cbcEncAux (expandKey256 key) iv (chunks16 data)).flatten

/-- CBC decryption over 16-byte chunks. -/
def cbcDecAux (rks : List (List Nat)) : List Nat → List (List Nat) → List (List Nat)
  | _, [] => []
  | prev, c :: cs => xorBytes prev (decryptBlock rks c) :: cbcDecAux rks c cs

/-- AES-256-CBC decryption with no padding. -/
def aes256CbcDecrypt (key iv data : List Nat) : List Nat :=
  (cbcDecAux (expandKey256 key) iv (chunks16 data)).flatten

/-! ### SHA-256 and SHA-512 (FIPS 180-4) -/

/-- SHA-256 round constants. -/
def sha256K : List Nat := [
  1116352408, 1899447441, 3049323471, 3921009573, 961987163, 1508970993, 2453635748, 2870763221,
  3624381080, 310598401, 607225278, 1426881987, 1925078388, 2162078206, 2614888103, 3248222580,
  3835390401, 4022224774, 264347078, 604807628, 770255983, 1249150122, 1555081692, 1996064986,
  2554220882, 2821834349, 2952996808, 3210313671, 3336571891, 3584528711, 113926993, 338241895,
  666307205, 773529912, 1294757372, 1396182291, 1695183700, 1986661051, 2177026350, 2456956037,
  2730485921, 2820302411, 3259730800, 3345764771, 3516065817, 3600352804, 4094571909, 275423344,
  430227734, 506948616, 659060556, 883997877, 958139571, 1322822218, 1537002063, 1747873779,
  1955562222, 2024104815, 2227730452, 2361852424, 2428436474, 2756734187, 3204031479, 3329325298
]

/-- SHA-256 initial hash state. -/
def sha256H0 : List Nat := [
  1779033703, 3144134277, 1013904242, 2773480762, 1359893119, 2600822924, 528734635, 1541459225
]

/-- SHA-512 round constants. -/
def sha512K : List Nat := [
  4794697086780616226, 8158064640168781261, 13096744586834688815, 16840607885511220156,
  4131703408338449720, 6480981068601479193, 10538285296894168987, 12329834152419229976,
  15566598209576043074, 1334009975649890238, 2608012711638119052, 6128411473006802146,
  8268148722764581231, 9286055187155687089, 11230858885718282805, 13951009754708518548,
  16472876342353939154, 17275323862435702243, 1135362057144423861, 2597628984639134821,
  3308224258029322869, 5365058923640841347, 6679025012923562964, 8573033837759648693,
  10970295158949994411, 12119686244451234320, 12683024718118986047, 13788192230050041572,
  14330467153632333762, 15395433587784984357, 489312712824947311, 1452737877330783856,
  2861767655752347644, 3322285676063803686, 5560940570517711597, 5996557281743188959,
  7280758554555802590, 8532644243296465576, 9350256976987008742, 10552545826968843579,
  11727347734174303076, 12113106623233404929, 14000437183269869457, 14369950271660146224,
  15101387698204529176, 15463397548674623760, 17586052441742319658, 1182934255886127544,
  1847814050463011016, 2177327727835720531, 2830643537854262169, 3796741975233480872,
  4115178125766777443, 5681478168544905931, 6601373596472566643, 7507060721942968483,
  8399075790359081724, 8693463985226723168, 9568029438360202098, 10144078919501101548,
  10430055236837252648, 11840083180663258601, 13761210420658862357, 14299343276471374635,
  14566680578165727644, 15097957966210449927, 16922976911328602910, 17689382322260857208,
  500013540394364858, 748580250866718886, 1242879168328830382, 1977374033974150939,
  2944078676154940804, 3659926193048069267, 4368137639120453308, 4836135668995329356,
  5532061633213252278, 6448918945643986474, 6902733635092675308, 7801388544844847127
]

/-- SHA-512 initial hash state. -/
def sha512H0 : List Nat := [
  7640891576956012808, 13503953896175478587, 4354685564936845355, 11912009170470909681,
  5840696475078001361, 11170449401992604703, 2270897969802886507, 6620516959819538809
]

/-- Rotate a `w`-bit word right by `n`. -/
def rotr (w x n : Nat) : Nat := ((x >>> n) ||| (x <<< (w - n))) % 2 ^ w

/-- Big-endian bytes of a `k`-byte word. -/
def beBytes : Nat → Nat → List Nat
  | 0, _ => []
  | k + 1, x => (x >>> (8 * k)) % 256 :: beBytes k x

/-- Read big-endian `k`-byte words out of a byte string. -/
def wordsOfBytes (k : Nat) (fuel : Nat) (l : List Nat) : List Nat :=
  match fuel with
  | 0 => []
  | fuel + 1 =>
    match l with
    | [] => []
    | _ => (l.take k).foldl (fun a b => a * 256 + b) 0 :: wordsOfBytes k fuel (l.drop k)

/-- FIPS 180-4 message padding for block size `bs` bytes (length field 2*`bs`/16 bytes). -/
def shaPad (bs : Nat) (msg : List Nat) : List Nat :=
  let lenField := bs / 8
  let zeros := (bs - (msg.length + 1 + lenField) % bs) % bs
  msg ++ 0x80 :: List.replicate zeros 0 ++ beBytes lenField (8 * msg.length)

/-- Message-schedule extension step shared by SHA-256 and SHA-512; `ws` holds the
schedule in reverse (latest word first). -/
def shaExtend (w : Nat) (s0a s0b s0c s1a s1b s1c : Nat) : Nat → List Nat → List Nat
  | 0, ws => ws
  | fuel + 1, ws =>
    let w15 := ws.getD 14 0
    let w2 := ws.getD 1 0
    let s0 := rotr w w15 s0a ^^^ rotr w w15 s0b ^^^ (w15 >>> s0c)
    let s1 := rotr w w2 s1a ^^^ rotr w w2 s1b ^^^ (w2 >>> s1c)
    shaExtend w s0a s0b s0c s1a s1b s1c fuel (((ws.getD 15 0 + s0 + ws.getD 6 0 + s1) % 2 ^ w) :: ws)

/-- One compression round shared by SHA-256 and SHA-512 on the 8-word state. -/
def shaRound (w e0a e0b e0c e1a e1b e1c : Nat) (kw : Nat) (st : List Nat) : List Nat :=
  match st with
  | [a, b, c, d, e, f, g, h] =>
    let s1 := rotr w e e1a ^^^ rotr w e e1b ^^^ rotr w e e1c
    let ch := (e &&& f) ^^^ ((2 ^ w - 1 - e) &&& g)
    let t1 := (h + s1 + ch + kw) % 2 ^ w
    let s0 := rotr w a e0a ^^^ rotr w a e0b ^^^ rotr w a e0c
    let mj := (a &&& b) ^^^ (a &&& c) ^^^ (b &&& c)
    let t2 := (s0 + mj) % 2 ^ w
    [(t1 + t2) % 2 ^ w, a, b, c, (d + t1) % 2 ^ w, e, f, g]
  | _ => st

/-- Compress one block: fold the rounds over the paired round-constant and
schedule words. -/
def shaCompress (w e0a e0b e0c e1a e1b e1c : Nat) (ks ws : List Nat) (h : List Nat) : List Nat :=
  let st := (List.zip ks ws).foldl
    (fun st kw => shaRound w e0a e0b e0c e1a e1b e1c ((kw.1 + kw.2) % 2 ^ w) st) h
  List.zipWith (fun x y => (x + y) % 2 ^ w) h st

/-- SHA-256 over a byte string, producing 32 bytes. -/
def sha256 (msg : List Nat) : List Nat :=
  let blocks := chunksN 64 (shaPad 64 msg)
  let hFinal := blocks.foldl
    (fun h blk =>
      let w16 := wordsOfBytes 4 64 blk
      let ws := (shaExtend 32 7 18 3 17 19 10 48 w16.reverse).reverse
      shaCompress 32 2 13 22 6 11 25 sha256K ws h) sha256H0
  (hFinal.map (beBytes 4)).flatten

/-- SHA-512 over a byte string, producing 64 bytes. -/
def sha512 (msg : List Nat) : List Nat :=
  let blocks := chunksN 128 (shaPad 128 msg)
  let hFinal := blocks.foldl
    (fun h blk =>
      let w16 := wordsOfBytes 8 128 blk
      let ws := (shaExtend 64 1 8 7 19 61 6 64 w16.reverse).reverse
      shaCompress 64 28 34 39 14 18 41 sha512K ws h) sha512H0
  (hFinal.map (beBytes 8)).flatten

/-- HMAC-SHA-256 (QMessageAuthenticationCode with Sha256): key `key`, message `msg`. -/
def hmacSha256 (key msg : List Nat) : List Nat :=
  let k0 := if 64 < key.length then sha256 key else key
  let k := k0 ++ List.replicate (64 - k0.length) 0
  let ipad := k.map (fun b => b ^^^ 0x36)
  let opad := k.map (fun b => b ^^^ 0x5c)
  sha256 (opad ++ sha256 (ipad ++ msg))

/-! ### PBKDF2 pairing-token derivation (command_set.cpp, `derivePairingToken`) -/

/-- ASCII bytes of "Keycard Pairing Password Salt". -/
def pairingSalt : List Nat :=
  "Keycard Pairing Password Salt".toList.map Char.toNat

/-- The iteration loop of `derivePairingToken`: `U := HMAC(pw, U)`,
`T := T xor U`, repeated `n` times. -/
def pbkdfIter (pw : List Nat) : Nat → List Nat → List Nat → List Nat
  | 0, _, t => t
  | n + 1, u, t =>
    let u' := hmacSha256 pw u
    pbkdfIter pw n u' (xorBytes t u')

/-- PBKDF2-HMAC-SHA-256 pairing-password derivation, translated from
`derivePairingToken` in command_set.cpp: salt "Keycard Pairing Password Salt",
50000 iterations, 32-byte output (a single HMAC block, so the source's outer
block loop runs exactly once with block index 1). -/
def derivePairingToken (passwordBytes : List Nat) : List Nat :=
  let blockData := pairingSalt ++ [0, 0, 0, 1]
  let u1 := hmacSha256 passwordBytes blockData
  pbkdfIter passwordBytes 49999 u1 u1

/-! ### APDU codec

The `apdu/command.h`, `apdu/response.h`, `apdu/constants.h` and
`apdu/utils.h` sources of this repository are not part of the provided
sources (only their callers are), so the definitions in this section are
modelled from the spec (sections 4.1 and 6). -/

namespace APDU

/-- Modelled from the spec: CLA byte used by `CommandSet::buildCommand` for
all card commands (`APDU::CLA`). -/
def CLA : Nat := 0x80

/-- Modelled from the spec: ISO 7816 CLA byte (`APDU::CLA_ISO7816`),
used by SELECT and IDENTIFY. -/
def CLA_ISO7816 : Nat := 0x00

def INS_SELECT : Nat := 0xA4
def INS_INIT : Nat := 0xFD
def INS_PAIR : Nat := 0x12
def INS_OPEN_SECURE_CHANNEL : Nat := 0x10
def INS_MUTUALLY_AUTHENTICATE : Nat := 0x11
def INS_UNPAIR : Nat := 0x13
def INS_GET_STATUS : Nat := 0xF2
def INS_VERIFY_PIN : Nat := 0x20
def INS_CHANGE_PIN : Nat := 0x21
def INS_UNBLOCK_PIN : Nat := 0x22
def INS_LOAD_KEY : Nat := 0xD4
def INS_DERIVE_KEY : Nat := 0xD5
def INS_GENERATE_MNEMONIC : Nat := 0xD6
def INS_REMOVE_KEY : Nat := 0xC0
def INS_SIGN : Nat := 0xC8
def INS_SET_PINLESS_PATH : Nat := 0xC9
def INS_EXPORT_KEY : Nat := 0xC2
def INS_STORE_DATA : Nat := 0xE2
def INS_GET_DATA : Nat := 0xCA
def INS_IDENTIFY : Nat := 0x14
def INS_FACTORY_RESET : Nat := 0xFE

/-- Modelled from the spec: the INS byte of GENERATE KEY is not listed in the
spec's INS table; any byte distinct from the listed ones works for the
properties proved here. -/
def INS_GENERATE_KEY : Nat := 0xD7

/-- Modelled from the spec: P1/P2 constants from `apdu/constants.h` (values as
in the Keycard protocol; no claim below depends on the concrete values). -/
def P1PairFirstStep : Nat := 0x00
def P1PairFinalStep : Nat := 0x01
def P1GetStatusApplication : Nat := 0x00
def P1ChangePinPIN : Nat := 0x00
def P1ChangePinPUK : Nat := 0x01
def P1ChangePinPairingSecret : Nat := 0x02
def P1LoadKeySeed : Nat := 0x03
def P1DeriveKeyFromMaster : Nat := 0x00
def P1DeriveKeyFromParent : Nat := 0x40
def P1DeriveKeyFromCurrent : Nat := 0x80
def P1SignCurrentKey : Nat := 0x00
def P1SignDerive : Nat := 0x01
def P1SignDeriveAndMakeCurrent : Nat := 0x02
def P1SignPinless : Nat := 0x03
def P1ExportKeyCurrent : Nat := 0x00
def P1ExportKeyDerive : Nat := 0x01
def P1ExportKeyDeriveAndMakeCurrent : Nat := 0x02
def P1FactoryResetMagic : Nat := 0xAA
def P2FactoryResetMagic : Nat := 0xAA
def P2ExportKeyPublicOnly : Nat := 0x00

/-- Modelled from the spec (section 4.1): ISO/IEC 9797-1 method-2 padding of
`APDU::Utils::pad` — append 0x80 then zero bytes to reach a multiple of
`block`; always adds at least one byte. -/
def pad (data : List Nat) (block : Nat) : List Nat :=
  data ++ 0x80 :: List.replicate (block - 1 - data.length % block) 0

/-- Modelled from the spec (section 4.1): `APDU::Utils::unpad` — remove
trailing zeros until the 0x80 sentinel.  The spec calls a missing sentinel a
decoding error; the behaviour of the missing source in that case is modelled
as returning the input unchanged (no claim below depends on it). -/
def unpad (data : List Nat) : List Nat :=
  match data.reverse.dropWhile (fun b => b = 0) with
  | 0x80 :: rest => rest.reverse
  | _ => data

/-- Modelled from the spec (section 4.1): an ISO 7816-4 command APDU
(`APDU::Command`). -/
structure Command where
  cla : Nat
  ins : Nat
  p1 : Nat
  p2 : Nat
  data : List Nat := []
  le : Option Nat := none
deriving Repr, DecidableEq

/-- Modelled from the spec (section 4.1): command serialization — header
`CLA INS P1 P2`, then `Lc` and the data when data is present, then `Le`
when set (0 meaning 256). -/
def Command.serialize (c : Command) : List Nat :=
  [c.cla, c.ins, c.p1, c.p2] ++
  (if c.data = [] then [] else c.data.length % 256 :: c.data) ++
  (match c.le with | none => [] | some le => [le % 256])

/-- Modelled from the spec (section 4.1): a decoded response APDU
(`APDU::Response`) — the last two bytes are SW1 SW2, the rest is data. -/
structure Response where
  data : List Nat
  sw : Nat
deriving Repr, DecidableEq

/-- Modelled from the spec: decode a raw response byte string. -/
def Response.ofRaw (raw : List Nat) : Response :=
  if 2 ≤ raw.length then
    { data := raw.take (raw.length - 2),
      sw := raw.getD (raw.length - 2) 0 * 256 + raw.getD (raw.length - 1) 0 }
  else { data := [], sw := 0 }

/-- Modelled from the spec: `SW == 0x9000` means success. -/
def Response.isOK (r : Response) : Bool := r.sw == 0x9000

end APDU

/-- Lower-case hex digit. -/
def hexDigit (n : Nat) : Char := if n < 10 then Char.ofNat (48 + n) else Char.ofNat (87 + n)

/-- `QString::arg(sw, 4, 16, QChar(zero))`: four lower-case hex digits. -/
def toHex4 (n : Nat) : String :=
  String.mk [hexDigit ((n >>> 12) % 16), hexDigit ((n >>> 8) % 16),
             hexDigit ((n >>> 4) % 16), hexDigit (n % 16)]

/-! ### Transport channel

`IChannel::transmit` is modelled the way the repository's own unit tests
model it (`MockChannel` in the tests): a scripted queue of responses,
recording every transmitted APDU.  `sleeps` records the milliseconds of every
`QThread::msleep` call so that retry delays are observable. -/

structure Chan where
  script : List (List Nat) := []
  sent : List (List Nat) := []
  sleeps : List Nat := []
deriving Repr, DecidableEq

/-- Android `IsoDep.transceive`: pops the next scripted response; an exhausted
script models an invalid/failed JNI result. -/
def Chan.transceive (ch : Chan) (apdu : List Nat) : Option (List Nat) × Chan :=
  match ch.script with
  | [] => (none, { ch with sent := ch.sent ++ [apdu] })
  | r :: rest => (some r, { ch with script := rest, sent := ch.sent ++ [apdu] })

/-- `IChannel::transmit`: like `transceive`, with a failed transport returning
an empty QByteArray. -/
def Chan.transmit (ch : Chan) (apdu : List Nat) : List Nat × Chan :=
  match ch.transceive apdu with
  | (none, ch') => ([], ch')
  | (some r, ch') => (r, ch')

/-- `KeycardChannelAndroidNfc::handleMultiFrameResponse`
(keycard_channel_android_nfc.cpp): when SW1 of `resp` is 0x61, send one
GET RESPONSE (`00 C0 00 00 sw2`) through IsoDep, and replace the response by
its data (first SW stripped) followed by the additional response. -/
def handleMultiFrameResponse (resp : List Nat) (ch : Chan) : List Nat × Chan :=
  if resp.length < 2 then (resp, ch)
  else
    let sw1 := resp.getD (resp.length - 2) 0
    let sw2 := resp.getD (resp.length - 1) 0
    if sw1 = 0x61 then
      let getResponseApdu := [0x00, 0xC0, 0x00, 0x00, sw2]
      match ch.transceive getResponseApdu with
      | (some additional, ch') => (resp.take (resp.length - 2) ++ additional, ch')
      | (none, ch') => (resp, ch')
    else (resp, ch)

/-! ### Secure channel (secure_channel.cpp) -/

/-- The state held in `SecureChannel::Private`.  The OpenSSL `EVP_PKEY`
pointers are modelled as presence flags (only their being set or cleared
matters to the properties below). -/
structure SCState where
  secret : List Nat := []
  rawPublicKeyData : List Nat := []
  hasPrivateKey : Bool := false
  hasCardPublicKey : Bool := false
  iv : List Nat := []
  encKey : List Nat := []
  macKey : List Nat := []
  isOpen : Bool := false
  openedIndex : Int := -1
deriving Repr, DecidableEq

namespace SecureChannel

/-- `SecureChannel::init`: install the session keys and the card IV and mark
the channel open. -/
def init (st : SCState) (iv encKey macKey : List Nat) : SCState :=
  { st with iv := iv, encKey := encKey, macKey := macKey,
            isOpen := true, openedIndex := 0 }

/-- `SecureChannel::reset`: clear the session keys, IV and open flag and free
the imported card public key; the ECDH secret, the ephemeral private key and
the raw public key are deliberately kept (source comment: "keeping ephemeral
keys for pairing"). -/
def reset (st : SCState) : SCState :=
  { st with iv := [], encKey := [], macKey := [],
            isOpen := false, openedIndex := -1, hasCardPublicKey := false }

/-- `SecureChannel::encrypt`: pad the plaintext (ISO 9797-1 method 2) and
AES-256-CBC-encrypt it under the session encryption key and running IV. -/
def encrypt (st : SCState) (plaintext : List Nat) : List Nat :=
  if st.isOpen then aes256CbcEncrypt st.encKey st.iv (APDU.pad plaintext 16)
  else []

/-- `SecureChannel::decrypt`: AES-256-CBC-decrypt under the session key and
running IV, then unpad. -/
def decrypt (st : SCState) (ciphertext : List Nat) : List Nat :=
  if st.isOpen then
    if ciphertext = [] then []
    else APDU.unpad (aes256CbcDecrypt st.encKey st.iv ciphertext)
  else []

/-- `SecureChannel::calculateMAC`: pad `data` with 0x80 and zeros to a
multiple of 16, AES-256-CBC-encrypt `meta` under `macKey` with a zero IV,
use the last 16 bytes of that ciphertext as the IV to encrypt the padded
data, and return `mid(size-32, 16)` of the result — with the source's guard
returning 16 zero bytes when the encrypted data is shorter than 32 bytes. -/
def calculateMAC (macKey meta data : List Nat) : List Nat :=
  let paddingSize := 16 - data.length % 16
  let paddedData := data ++ 0x80 :: List.replicate (paddingSize - 1) 0
  let zeroIV := List.replicate 16 0
  let encryptedMeta := aes256CbcEncrypt macKey zeroIV meta
  let newIV := encryptedMeta.drop (encryptedMeta.length - 16)
  let encryptedData := aes256CbcEncrypt macKey newIV paddedData
  if encryptedData.length < 32 then List.replicate 16 0
  else (encryptedData.drop (encryptedData.length - 32)).take 16

/-- `SecureChannel::send`: throws when the channel is not open; otherwise
encrypts the command data, MACs it over the 16-byte metadata block, makes the
MAC the new running IV, transmits `MAC || ciphertext` under the original
header, and — for a successful non-empty response — splits off the response
MAC, decrypts with the pre-update IV, verifies the MAC over the remaining
ciphertext and makes the verified MAC the new running IV.  C++ exceptions are
modelled as the `.error` constructor. -/
def send (st : SCState) (ch : Chan) (command : APDU.Command) :
    Except String APDU.Response × SCState × Chan :=
  if st.isOpen then
    let encData := encrypt st command.data
    let meta := [command.cla, command.ins, command.p1, command.p2,
                 (encData.length + 16) % 256] ++ List.replicate 11 0
    let mac := calculateMAC st.macKey meta encData
    let st1 := { st with iv := mac }
    let secureCmd : APDU.Command :=
      { cla := command.cla, ins := command.ins, p1 := command.p1,
        p2 := command.p2, data := mac ++ encData, le := command.le }
    let (raw, ch1) := ch.transmit secureCmd.serialize
    let response := APDU.Response.ofRaw raw
    if response.isOK ∧ response.data ≠ [] then
      if response.data.length < 16 then (.error "Response too short", st1, ch1)
      else
        let responseMac := response.data.take 16
        let responseData := response.data.drop 16
        let decrypted := decrypt st1 responseData
        let rmeta := response.data.length % 256 :: List.replicate 15 0
        let calculatedMac := calculateMAC st1.macKey rmeta responseData
        if calculatedMac ≠ responseMac then
          (.error "Response MAC verification failed", st1, ch1)
        else (.ok (APDU.Response.ofRaw decrypted), { st1 with iv := calculatedMac }, ch1)
    else (.ok response, st1, ch1)
  else (.error "Secure channel not open", st, ch)

end SecureChannel

/-! ### BIP32 path parsing (command_set.cpp, `parseDerivationPath`)

QString is modelled as `List Char`; the Qt string primitives used by the
source (trimmed, startsWith, mid, split, endsWith, toUInt) are modelled
below over char lists. -/

/-- ASCII whitespace, as trimmed by `QString::trimmed`. -/
def isWs (c : Char) : Bool :=
  c = ' ' || c = '\t' || c = '\n' || c = '\r' || c = '\x0b' || c = '\x0c'

/-- `QString::trimmed` (ASCII whitespace). -/
def trimChars (l : List Char) : List Char :=
  ((l.dropWhile isWs).reverse.dropWhile isWs).reverse

/-- `QString::startsWith`. -/
def startsWithChars (pre l : List Char) : Bool := l.take pre.length == pre

/-- `QString::split` on a single character: splits into (possibly empty)
segments between occurrences of `sep`. -/
def splitOnSlash : List Char → List (List Char)
  | [] => [[]]
  | c :: rest =>
    match splitOnSlash rest with
    | [] => [[c]]
    | h :: t => if c = '/' then [] :: h :: t else (c :: h) :: t

def isDigitChar (c : Char) : Bool := '0' ≤ c && c ≤ '9'

def digitVal (c : Char) : Nat := c.toNat - 48

/-- `QString::toUInt` with base 10: an optional leading plus sign followed by
at least one decimal digit, value below 2 ^ 32; anything else fails
(`ok = false`, modelled as `none`). -/
def toUIntChars (l : List Char) : Option Nat :=
  let core := match l with
    | '+' :: rest => rest
    | _ => l
  if core = [] then none
  else if core.all isDigitChar then
    let v := core.foldl (fun a c => a * 10 + digitVal c) 0
    if v < 2 ^ 32 then some v else none
  else none

/-- The per-segment value computed by the loop of `parseDerivationPath`:
when the segment ends in an apostrophe or `h`, parse the rest and set bit
0x80000000; otherwise parse the whole segment; `none` models `ok == false`
(the segment is then skipped by the loop). -/
def segValue (seg : List Char) : Option Nat :=
  match seg.getLast? with
  | some c =>
    if c = '\'' ∨ c = 'h' then
      (toUIntChars seg.dropLast).map (fun v => v ||| 0x80000000)
    else toUIntChars seg
  | none => toUIntChars seg

/-- One iteration of the segment loop of `parseDerivationPath`: append the
big-endian serialization when the segment parsed (`if (ok) stream << value`),
silently skip it otherwise. -/
def pathSegStep (acc : List Nat) (seg : List Char) : List Nat :=
  match segValue seg with
  | some v => acc ++ be32 v
  | none => acc

/-- The segment loop of `parseDerivationPath`: big-endian serialization of the
valid segments, in order, invalid segments skipped. -/
def pathSegFold (segs : List (List Char)) : List Nat :=
  segs.foldl pathSegStep []

/-- `parseDerivationPath` (command_set.cpp): trims the path, determines the
starting point from the `m/`, `../`, `./` prefixes (defaulting to
from-current), and serializes the remaining `/`-separated segments as
big-endian u32 values, hardened segments (trailing apostrophe or `h`) with
bit 0x80000000 set.  Returns the serialized bytes together with the
`startingPoint` out-parameter. -/
def parseDerivationPath (path : List Char) : List Nat × Nat :=
  let cleanPath := trimChars path
  let sp :=
    if startsWithChars ['m', '/'] cleanPath then (APDU.P1DeriveKeyFromMaster, cleanPath.drop 2)
    else if startsWithChars ['.', '.', '/'] cleanPath then (APDU.P1DeriveKeyFromParent, cleanPath.drop 3)
    else if startsWithChars ['.', '/'] cleanPath then (APDU.P1DeriveKeyFromCurrent, cleanPath.drop 2)
    else (APDU.P1DeriveKeyFromCurrent, cleanPath)
  if sp.2 = [] then ([], sp.1)
  else (pathSegFold (splitOnSlash sp.2), sp.1)

/-! ### Command set (command_set.cpp) -/

/-- `PairingInfo` (types.h is not part of the provided sources; the fields
follow the spec, section 3). -/
structure PairingInfo where
  key : List Nat := []
  index : Nat := 0
deriving Repr, DecidableEq

/-- Modelled from the spec (section 3): `PairingInfo::isValid` — key length 32
and index inside the card's five pairing slots. -/
def PairingInfo.isValid (p : PairingInfo) : Bool :=
  p.key.length == 32 && p.index < 5

/-- Modelled from the spec (section 3): `ApplicationStatus` as parsed from
GET STATUS. -/
structure ApplicationStatus where
  pinRetryCount : Nat := 0
  pukRetryCount : Nat := 0
  keyInitialized : Bool := false
  valid : Bool := false
deriving Repr, DecidableEq

/-- Modelled from the spec (section 3): `parseApplicationStatus` — the
types_parser source is not part of the provided sources; a TLV `0xA3`
containing the PIN retry counter, the PUK retry counter and the
key-initialized flag.  No claim below depends on its details. -/
def parseApplicationStatus (data : List Nat) : ApplicationStatus :=
  match data with
  | 0xA3 :: _ :: 0x02 :: 1 :: pin :: 0x02 :: 1 :: puk :: 0x01 :: 1 :: ki :: _ =>
    { pinRetryCount := pin, pukRetryCount := puk, keyInitialized := ki != 0, valid := true }
  | _ => {}

/-- The `CommandSet` member state: the owned secure channel, the stored
pairing info, `m_lastError` and `m_remainingPINAttempts`. -/
structure CSState where
  sc : SCState := {}
  pairingInfo : PairingInfo := {}
  lastError : String := ""
  remainingPINAttempts : Int := -1
deriving Repr, DecidableEq

namespace CommandSet

/-- `CommandSet::buildCommand`: CLA `APDU::CLA`, no Le. -/
def buildCommand (ins p1 p2 : Nat) (data : List Nat) : APDU.Command :=
  { cla := APDU.CLA, ins := ins, p1 := p1, p2 := p2, data := data, le := none }

/-- `CommandSet::checkOK`: on a bad SW set `m_lastError` to the formatted
APDU error and return false; on success clear it. -/
def checkOK (cs : CSState) (response : APDU.Response) : Bool × CSState :=
  if response.isOK then (true, { cs with lastError := "" })
  else (false, { cs with lastError := "APDU error: SW=" ++ toHex4 response.sw })

/-- The `m_secureChannel->send(cmd)` followed by `checkOK(resp)` pattern shared
by the boolean commands; a send exception propagates out. -/
def transmitChecked (cs : CSState) (ch : Chan) (cmd : APDU.Command) :
    Except String Bool × CSState × Chan :=
  match SecureChannel.send cs.sc ch cmd with
  | (.error e, sc1, ch1) => (.error e, { cs with sc := sc1 }, ch1)
  | (.ok resp, sc1, ch1) =>
    let (ok, cs2) := checkOK { cs with sc := sc1 } resp
    (.ok ok, cs2, ch1)

/-- The send-then-checkOK pattern of the commands returning response data
(empty bytes on failure). -/
def transmitData (cs : CSState) (ch : Chan) (cmd : APDU.Command) :
    Except String (List Nat) × CSState × Chan :=
  match SecureChannel.send cs.sc ch cmd with
  | (.error e, sc1, ch1) => (.error e, { cs with sc := sc1 }, ch1)
  | (.ok resp, sc1, ch1) =>
    let (ok, cs2) := checkOK { cs with sc := sc1 } resp
    if ok then (.ok resp.data, cs2, ch1) else (.ok [], cs2, ch1)

/-- `CommandSet::verifyPIN`: requires the open channel; sends the encrypted
VERIFY PIN; on SW 0x6f05 sleeps 50 ms and retries the same command once
(hot-plug state-sync fix); classifies the final SW with
`(sw & 0x63C0) == 0x63C0` as wrong PIN, storing `sw & 0x000F` as the
remaining attempts. -/
def verifyPIN (cs : CSState) (ch : Chan) (pin : List Nat) :
    Except String Bool × CSState × Chan :=
  if ¬cs.sc.isOpen then
    (.ok false, { cs with lastError := "Secure channel not open" }, ch)
  else
    let cmd := buildCommand APDU.INS_VERIFY_PIN 0 0 pin
    match SecureChannel.send cs.sc ch cmd with
    | (.error e, sc1, ch1) => (.error e, { cs with sc := sc1 }, ch1)
    | (.ok resp1, sc1, ch1) =>
      let retried : Except String APDU.Response × SCState × Chan :=
        if resp1.sw = 0x6f05 then
          SecureChannel.send sc1 { ch1 with sleeps := ch1.sleeps ++ [50] } cmd
        else (.ok resp1, sc1, ch1)
      match retried with
      | (.error e, sc2, ch2) => (.error e, { cs with sc := sc2 }, ch2)
      | (.ok resp, sc2, ch2) =>
        if (resp.sw &&& 0x63C0) = 0x63C0 then
          let rem : Int := (resp.sw &&& 0x000F : Nat)
          (.ok false,
           { cs with sc := sc2, remainingPINAttempts := rem,
                     lastError := "Wrong PIN. Remaining attempts: " ++ toString rem },
           ch2)
        else
          let cs1 := { cs with sc := sc2, remainingPINAttempts := -1 }
          let (ok, cs2) := checkOK cs1 resp
          (.ok ok, cs2, ch2)

/-- `CommandSet::changePIN`. -/
def changePIN (cs : CSState) (ch : Chan) (newPIN : List Nat) :
    Except String Bool × CSState × Chan :=
  if ¬cs.sc.isOpen then
    (.ok false, { cs with lastError := "Secure channel not open" }, ch)
  else transmitChecked cs ch (buildCommand APDU.INS_CHANGE_PIN APDU.P1ChangePinPIN 0 newPIN)

/-- `CommandSet::changePUK`. -/
def changePUK (cs : CSState) (ch : Chan) (newPUK : List Nat) :
    Except String Bool × CSState × Chan :=
  if ¬cs.sc.isOpen then
    (.ok false, { cs with lastError := "Secure channel not open" }, ch)
  else transmitChecked cs ch (buildCommand APDU.INS_CHANGE_PIN APDU.P1ChangePinPUK 0 newPUK)

/-- `CommandSet::unblockPIN`: PUK concatenated with the new PIN; the same
`(sw & 0x63C0) == 0x63C0` wrong-PUK classification (the remaining counter is
local and only surfaced through `m_lastError`). -/
def unblockPIN (cs : CSState) (ch : Chan) (puk newPIN : List Nat) :
    Except String Bool × CSState × Chan :=
  if ¬cs.sc.isOpen then
    (.ok false, { cs with lastError := "Secure channel not open" }, ch)
  else
    let cmd := buildCommand APDU.INS_UNBLOCK_PIN 0 0 (puk ++ newPIN)
    match SecureChannel.send cs.sc ch cmd with
    | (.error e, sc1, ch1) => (.error e, { cs with sc := sc1 }, ch1)
    | (.ok resp, sc1, ch1) =>
      if (resp.sw &&& 0x63C0) = 0x63C0 then
        let remaining := resp.sw &&& 0x000F
        (.ok false,
         { cs with sc := sc1,
                   lastError := "Wrong PUK. Remaining attempts: " ++ toString remaining },
         ch1)
      else
        let (ok, cs2) := checkOK { cs with sc := sc1 } resp
        (.ok ok, cs2, ch1)

/-- `CommandSet::changePairingSecret`. -/
def changePairingSecret (cs : CSState) (ch : Chan) (newPassword : List Nat) :
    Except String Bool × CSState × Chan :=
  if ¬cs.sc.isOpen then
    (.ok false, { cs with lastError := "Secure channel not open" }, ch)
  else
    transmitChecked cs ch
      (buildCommand APDU.INS_CHANGE_PIN APDU.P1ChangePinPairingSecret 0 newPassword)

/-- `CommandSet::generateKey`: returns the 32-byte key UID. -/
def generateKey (cs : CSState) (ch : Chan) :
    Except String (List Nat) × CSState × Chan :=
  if ¬cs.sc.isOpen then
    (.ok [], { cs with lastError := "Secure channel not open" }, ch)
  else transmitData cs ch (buildCommand APDU.INS_GENERATE_KEY 0 0 [])

/-- The big-endian 2-byte word-index decoding loop of
`CommandSet::generateMnemonic`. -/
def mnemonicIndexes : List Nat → List Nat
  | a :: b :: rest => (a * 256 + b) :: mnemonicIndexes rest
  | _ => []

/-- `CommandSet::generateMnemonic`. -/
def generateMnemonic (cs : CSState) (ch : Chan) (checksumSize : Nat) :
    Except String (List Nat) × CSState × Chan :=
  if ¬cs.sc.isOpen then
    (.ok [], { cs with lastError := "Secure channel not open" }, ch)
  else
    let cmd := buildCommand APDU.INS_GENERATE_MNEMONIC (checksumSize % 256) 0 []
    match SecureChannel.send cs.sc ch cmd with
    | (.error e, sc1, ch1) => (.error e, { cs with sc := sc1 }, ch1)
    | (.ok resp, sc1, ch1) =>
      let (ok, cs2) := checkOK { cs with sc := sc1 } resp
      if ok then (.ok (mnemonicIndexes resp.data), cs2, ch1) else (.ok [], cs2, ch1)

/-- `CommandSet::loadSeed`: the 64-byte input validation runs before the
secure-channel check. -/
def loadSeed (cs : CSState) (ch : Chan) (seed : List Nat) :
    Except String (List Nat) × CSState × Chan :=
  if seed.length ≠ 64 then
    (.ok [], { cs with lastError := "Seed must be 64 bytes" }, ch)
  else if ¬cs.sc.isOpen then
    (.ok [], { cs with lastError := "Secure channel not open" }, ch)
  else transmitData cs ch (buildCommand APDU.INS_LOAD_KEY APDU.P1LoadKeySeed 0 seed)

/-- `CommandSet::removeKey`. -/
def removeKey (cs : CSState) (ch : Chan) :
    Except String Bool × CSState × Chan :=
  if ¬cs.sc.isOpen then
    (.ok false, { cs with lastError := "Secure channel not open" }, ch)
  else transmitChecked cs ch (buildCommand APDU.INS_REMOVE_KEY 0 0 [])

/-- `CommandSet::deriveKey`. -/
def deriveKey (cs : CSState) (ch : Chan) (path : List Char) :
    Except String Bool × CSState × Chan :=
  if ¬cs.sc.isOpen then
    (.ok false, { cs with lastError := "Secure channel not open" }, ch)
  else
    let pd := parseDerivationPath path
    transmitChecked cs ch (buildCommand APDU.INS_DERIVE_KEY pd.2 0 pd.1)

/-- The trailing `mid(65)` of the SIGN commands: skip the 65-byte public key
when the response is longer than 65 bytes. -/
def stripPubkey (fullResp : List Nat) : List Nat :=
  if 65 < fullResp.length then fullResp.drop 65 else fullResp

/-- `CommandSet::sign`: the 32-byte hash validation runs before the
secure-channel check. -/
def sign (cs : CSState) (ch : Chan) (data : List Nat) :
    Except String (List Nat) × CSState × Chan :=
  if data.length ≠ 32 then
    (.ok [], { cs with lastError := "Data must be 32 bytes (hash)" }, ch)
  else if ¬cs.sc.isOpen then
    (.ok [], { cs with lastError := "Secure channel not open" }, ch)
  else
    let cmd := buildCommand APDU.INS_SIGN APDU.P1SignCurrentKey 1 data
    match SecureChannel.send cs.sc ch cmd with
    | (.error e, sc1, ch1) => (.error e, { cs with sc := sc1 }, ch1)
    | (.ok resp, sc1, ch1) =>
      let (ok, cs2) := checkOK { cs with sc := sc1 } resp
      if ok then (.ok (stripPubkey resp.data), cs2, ch1) else (.ok [], cs2, ch1)

/-- `CommandSet::signWithPath`. -/
def signWithPath (cs : CSState) (ch : Chan) (data : List Nat) (path : List Char)
    (makeCurrent : Bool) : Except String (List Nat) × CSState × Chan :=
  if data.length ≠ 32 then
    (.ok [], { cs with lastError := "Data must be 32 bytes (hash)" }, ch)
  else if ¬cs.sc.isOpen then
    (.ok [], { cs with lastError := "Secure channel not open" }, ch)
  else
    let pathData := (parseDerivationPath path).1
    let p1 := if makeCurrent then APDU.P1SignDeriveAndMakeCurrent else APDU.P1SignDerive
    let cmd := buildCommand APDU.INS_SIGN p1 1 (data ++ pathData)
    match SecureChannel.send cs.sc ch cmd with
    | (.error e, sc1, ch1) => (.error e, { cs with sc := sc1 }, ch1)
    | (.ok resp, sc1, ch1) =>
      let (ok, cs2) := checkOK { cs with sc := sc1 } resp
      if ok then (.ok (stripPubkey resp.data), cs2, ch1) else (.ok [], cs2, ch1)

/-- `CommandSet::signPinless`. -/
def signPinless (cs : CSState) (ch : Chan) (data : List Nat) :
    Except String (List Nat) × CSState × Chan :=
  if data.length ≠ 32 then
    (.ok [], { cs with lastError := "Data must be 32 bytes (hash)" }, ch)
  else if ¬cs.sc.isOpen then
    (.ok [], { cs with lastError := "Secure channel not open" }, ch)
  else
    let cmd := buildCommand APDU.INS_SIGN APDU.P1SignPinless 1 data
    match SecureChannel.send cs.sc ch cmd with
    | (.error e, sc1, ch1) => (.error e, { cs with sc := sc1 }, ch1)
    | (.ok resp, sc1, ch1) =>
      let (ok, cs2) := checkOK { cs with sc := sc1 } resp
      if ok then (.ok (stripPubkey resp.data), cs2, ch1) else (.ok [], cs2, ch1)

/-- `CommandSet::setPinlessPath`: the absolute-path validation runs before the
secure-channel check. -/
def setPinlessPath (cs : CSState) (ch : Chan) (path : List Char) :
    Except String Bool × CSState × Chan :=
  if ¬startsWithChars ['m', '/'] path then
    (.ok false, { cs with lastError := "Pinless path must be absolute (start with m/)" }, ch)
  else if ¬cs.sc.isOpen then
    (.ok false, { cs with lastError := "Secure channel not open" }, ch)
  else
    let pathData := (parseDerivationPath path).1
    transmitChecked cs ch (buildCommand APDU.INS_SET_PINLESS_PATH 0 0 pathData)

/-- `CommandSet::storeData`. -/
def storeData (cs : CSState) (ch : Chan) (type : Nat) (data : List Nat) :
    Except String Bool × CSState × Chan :=
  if ¬cs.sc.isOpen then
    (.ok false, { cs with lastError := "Secure channel not open" }, ch)
  else transmitChecked cs ch (buildCommand APDU.INS_STORE_DATA type 0 data)

/-- `CommandSet::getData`. -/
def getData (cs : CSState) (ch : Chan) (type : Nat) :
    Except String (List Nat) × CSState × Chan :=
  if ¬cs.sc.isOpen then
    (.ok [], { cs with lastError := "Secure channel not open" }, ch)
  else transmitData cs ch (buildCommand APDU.INS_GET_DATA type 0 [])

/-- `CommandSet::getStatus`. -/
def getStatus (cs : CSState) (ch : Chan) (info : Nat) :
    Except String ApplicationStatus × CSState × Chan :=
  if ¬cs.sc.isOpen then
    (.ok {}, { cs with lastError := "Secure channel not open" }, ch)
  else
    let cmd := buildCommand APDU.INS_GET_STATUS info 0 []
    match SecureChannel.send cs.sc ch cmd with
    | (.error e, sc1, ch1) => (.error e, { cs with sc := sc1 }, ch1)
    | (.ok resp, sc1, ch1) =>
      let (ok, cs2) := checkOK { cs with sc := sc1 } resp
      if ok then (.ok (parseApplicationStatus resp.data), cs2, ch1) else (.ok {}, cs2, ch1)

/-- `CommandSet::unpair`. -/
def unpair (cs : CSState) (ch : Chan) (index : Nat) :
    Except String Bool × CSState × Chan :=
  if ¬cs.sc.isOpen then
    (.ok false, { cs with lastError := "Secure channel not open" }, ch)
  else transmitChecked cs ch (buildCommand APDU.INS_UNPAIR index 0 [])

/-- `CommandSet::exportKey`: Le 0xFF; on derivation the starting point is
or-ed into P1. -/
def exportKey (cs : CSState) (ch : Chan) (derive makeCurrent : Bool)
    (path : List Char) (exportType : Nat) :
    Except String (List Nat) × CSState × Chan :=
  if ¬cs.sc.isOpen then
    (.ok [], { cs with lastError := "Secure channel not open" }, ch)
  else
    let pd := if derive then parseDerivationPath path else ([], 0)
    let p1 := if derive then
        (if makeCurrent then APDU.P1ExportKeyDeriveAndMakeCurrent
         else APDU.P1ExportKeyDerive) ||| pd.2
      else APDU.P1ExportKeyCurrent
    let cmd := { buildCommand APDU.INS_EXPORT_KEY p1 exportType pd.1 with le := some 0xFF }
    match SecureChannel.send cs.sc ch cmd with
    | (.error e, sc1, ch1) => (.error e, { cs with sc := sc1 }, ch1)
    | (.ok resp, sc1, ch1) =>
      let (ok, cs2) := checkOK { cs with sc := sc1 } resp
      if ok then (.ok resp.data, cs2, ch1)
      else (.ok [], { cs2 with lastError := "EXPORT_KEY failed with SW: 0x" ++ toHex4 resp.sw }, ch1)

/-- `CommandSet::exportKeyExtended`: identical but with Le 0. -/
def exportKeyExtended (cs : CSState) (ch : Chan) (derive makeCurrent : Bool)
    (path : List Char) (exportType : Nat) :
    Except String (List Nat) × CSState × Chan :=
  if ¬cs.sc.isOpen then
    (.ok [], { cs with lastError := "Secure channel not open" }, ch)
  else
    let pd := if derive then parseDerivationPath path else ([], 0)
    let p1 := if derive then
        (if makeCurrent then APDU.P1ExportKeyDeriveAndMakeCurrent
         else APDU.P1ExportKeyDerive) ||| pd.2
      else APDU.P1ExportKeyCurrent
    let cmd := { buildCommand APDU.INS_EXPORT_KEY p1 exportType pd.1 with le := some 0 }
    match SecureChannel.send cs.sc ch cmd with
    | (.error e, sc1, ch1) => (.error e, { cs with sc := sc1 }, ch1)
    | (.ok resp, sc1, ch1) =>
      let (ok, cs2) := checkOK { cs with sc := sc1 } resp
      if ok then (.ok resp.data, cs2, ch1)
      else (.ok [], { cs2 with lastError := "EXPORT_KEY_EXTENDED failed with SW: 0x" ++ toHex4 resp.sw }, ch1)

/-- `CommandSet::mutualAuthenticate`: sends the 32-byte challenge through the
secure channel (the challenge, random in the source, is a parameter here). -/
def mutualAuthenticate (cs : CSState) (ch : Chan) (challenge : List Nat) :
    Except String Bool × CSState × Chan :=
  transmitChecked cs ch (buildCommand APDU.INS_MUTUALLY_AUTHENTICATE 0 0 challenge)

/-- `CommandSet::openSecureChannel`: validates the pairing info, sends the
ephemeral public key, derives the session keys as
`SHA-512(secret || pairing_key || salt)` split 32/32, installs them through
`SecureChannel::init`, and then performs mutual authentication. -/
def openSecureChannel (cs : CSState) (ch : Chan) (maChallenge : List Nat)
    (pairingInfo : PairingInfo) : Except String Bool × CSState × Chan :=
  if ¬pairingInfo.isValid then
    (.ok false, { cs with lastError := "Invalid pairing info" }, ch)
  else
    let cs := { cs with pairingInfo := pairingInfo }
    let data := cs.sc.rawPublicKeyData
    if data = [] then
      (.ok false, { cs with lastError := "No public key available - secure channel not initialized" }, ch)
    else
      let cmd := buildCommand APDU.INS_OPEN_SECURE_CHANNEL pairingInfo.index 0 data
      let (raw, ch1) := ch.transmit cmd.serialize
      let resp := APDU.Response.ofRaw raw
      let (ok1, cs1) := checkOK cs resp
      if ¬ok1 then
        (.ok false, { cs1 with lastError := "Failed to open secure channel" }, ch1)
      else if resp.data.length < 48 then
        (.ok false, { cs1 with lastError := "Invalid card data size for session key derivation" }, ch1)
      else
        let salt := resp.data.take 32
        let iv := resp.data.drop 32
        let result := sha512 (cs1.sc.secret ++ pairingInfo.key ++ salt)
        let encKey := result.take 32
        let macKey := result.drop 32
        let cs2 := { cs1 with sc := SecureChannel.init cs1.sc iv encKey macKey }
        match mutualAuthenticate cs2 ch1 maChallenge with
        | (.error e, cs3, ch2) => (.error e, cs3, ch2)
        | (.ok maOk, cs3, ch2) =>
          if ¬maOk then
            (.ok false, { cs3 with lastError := "Mutual authentication failed" }, ch2)
          else (.ok true, cs3, ch2)

/-- Modelled from the spec: `Response::errorMessage` (the apdu/response
source is missing); a readable rendering of the status word. -/
def respErrorMessage (r : APDU.Response) : String := "SW=" ++ toHex4 r.sw

/-- `CommandSet::pair`: sends the 32-byte client challenge (a parameter here,
random in the source), verifies the card cryptogram against
`SHA-256(PBKDF2(password) || challenge)`, and only on a match sends the
step-2 PAIR with the client cryptogram and derives the pairing key. -/
def pair (cs : CSState) (ch : Chan) (challenge pwBytes : List Nat) :
    PairingInfo × CSState × Chan :=
  let cmd1 := buildCommand APDU.INS_PAIR APDU.P1PairFirstStep 0 challenge
  let (raw1, ch1) := ch.transmit cmd1.serialize
  let resp1 := APDU.Response.ofRaw raw1
  let (ok1, cs1) := checkOK cs resp1
  if ¬ok1 then
    if resp1.sw = 0x6A84 then
      ({}, { cs1 with lastError :=
        "No available pairing slots (SW=6A84). All pairing slots are full. To fix:\n1. Use an existing pairing from your saved pairings file\n2. Use Keycard Connect app to clear pairings\n3. Factory reset the card (WARNING: erases all data)" }, ch1)
    else
      ({}, { cs1 with lastError := "Pair step 1 failed: " ++ respErrorMessage resp1 }, ch1)
  else if resp1.data.length < 64 then
    ({}, { cs1 with lastError := "Invalid pair response size" }, ch1)
  else
    let cardCryptogram := resp1.data.take 32
    let cardChallenge := (resp1.data.drop 32).take 32
    let secretHash := derivePairingToken pwBytes
    let expectedCryptogram := sha256 (secretHash ++ challenge)
    if expectedCryptogram ≠ cardCryptogram then
      ({}, { cs1 with lastError := "Invalid card cryptogram - wrong pairing password" }, ch1)
    else
      let ourCryptogram := sha256 (secretHash ++ cardChallenge)
      let cmd2 := buildCommand APDU.INS_PAIR APDU.P1PairFinalStep 0 ourCryptogram
      let (raw2, ch2) := ch1.transmit cmd2.serialize
      let resp2 := APDU.Response.ofRaw raw2
      let (ok2, cs2) := checkOK cs1 resp2
      if ¬ok2 then ({}, { cs2 with lastError := "Pair step 2 failed" }, ch2)
      else if resp2.data = [] then
        ({}, { cs2 with lastError := "No pairing data in response" }, ch2)
      else
        let pairingIndex := resp2.data.getD 0 0
        let salt := resp2.data.drop 1
        let pairingKey := sha256 (secretHash ++ salt)
        let pinfo : PairingInfo := { key := pairingKey, index := pairingIndex }
        (pinfo, { cs2 with pairingInfo := pinfo }, ch2)

end CommandSet

/-! ### Spec-side definitions

These definitions follow the wording of the spec (not the source); the
theorems below compare them with the source-derived definitions. -/

/-- The retail-MAC formula exactly as worded in spec section 4.3.1 / S4:
pad the data with 0x80 then zeros to a multiple of 16, AES-256-CBC-encrypt
the meta block under the key with an all-zero IV, use the last 16 bytes of
that ciphertext as the IV to encrypt the padded data, and return the
second-to-last 16-byte block of the result, i.e. bytes [len-32 .. len-16]. -/
def macFormulaSpec (key meta data : List Nat) : List Nat :=
  let cMeta := aes256CbcEncrypt key (List.replicate 16 0) meta
  let ivDerived := cMeta.drop (cMeta.length - 16)
  let cData := aes256CbcEncrypt key ivDerived (APDU.pad data 16)
  (cData.drop (cData.length - 32)).take 16

/-- A path component per the spec's words: hardened sentinel an apostrophe or
`h` (bit 0x80000000 or-ed in), otherwise a plain number; an invalid component
is an error (`none`). -/
def segValueSpec (seg : List Char) : Option Nat :=
  match seg.getLast? with
  | none => none
  | some c =>
    if c = '\'' ∨ c = 'h' then
      (toUIntChars seg.dropLast).map (fun v => v ||| 0x80000000)
    else toUIntChars seg

/-- Values of all components per the spec's words: every component must be a
valid number, otherwise the whole path is invalid. -/
def segValsSpec : List (List Char) → Option (List Nat)
  | [] => some []
  | s :: ss =>
    match segValueSpec s, segValsSpec ss with
    | some v, some vs => some (v :: vs)
    | _, _ => none

/-- The path parser per the spec's words: the starting point comes from the
`m/`, `../` or `./` prefixes; every component is serialized as a big-endian
u32, concatenated in order; a component that is not a valid number produces
an `InvalidPath` error (`none`). -/
def specParsePath (path : List Char) : Option (List Nat × Nat) :=
  let clean := trimChars path
  let core :=
    if startsWithChars ['m', '/'] clean then
      some (APDU.P1DeriveKeyFromMaster, clean.drop 2)
    else if startsWithChars ['.', '.', '/'] clean then
      some (APDU.P1DeriveKeyFromParent, clean.drop 3)
    else if startsWithChars ['.', '/'] clean then
      some (APDU.P1DeriveKeyFromCurrent, clean.drop 2)
    else none
  match core with
  | none => none
  | some (sp, rest) =>
    if rest = [] then some ([], sp)
    else
      match segValsSpec (splitOnSlash rest) with
      | none => none
      | some vals => some ((vals.map be32).flatten, sp)

/-! ### Helper lemmas -/

lemma encryptBlock_length (rks : List (List Nat)) (b : List Nat) :
    (encryptBlock rks b).length = 16 := rfl

lemma cbcEncAux_flatten_length (rks : List (List Nat)) :
    ∀ (bs : List (List Nat)) (prev : List Nat),
      ((cbcEncAux rks prev bs).flatten).length = 16 * bs.length := by
  intro bs
  induction bs with
  | nil => intro prev; simp [cbcEncAux]
  | cons b bs ih =>
    intro prev
    simp [cbcEncAux, ih, encryptBlock_length]
    ring

lemma chunksAux_length :
    ∀ (fuel : Nat) (l : List Nat), l.length ≤ fuel →
      (chunksAux 16 fuel l).length = (l.length + 15) / 16 := by
  intro fuel
  induction fuel with
  | zero =>
    intro l hl
    have : l = [] := List.length_eq_zero.mp (Nat.le_zero.mp hl)
    subst this
    simp [chunksAux]
  | succ fuel ih =>
    intro l hl
    cases l with
    | nil => simp [chunksAux]
    | cons c cs =>
      have hlen : ((c :: cs).drop 16).length ≤ fuel := by
        simp only [List.length_drop]
        have := hl
        simp only [List.length_cons] at this ⊢
        omega
      have := ih ((c :: cs).drop 16) hlen
      simp only [chunksAux, List.length_cons, this, List.length_drop]
      omega

lemma aes256CbcEncrypt_length (k iv d : List Nat) :
    (aes256CbcEncrypt k iv d).length = 16 * ((d.length + 15) / 16) := by
  unfold aes256CbcEncrypt chunks16 chunksN
  rw [cbcEncAux_flatten_length, chunksAux_length _ _ (le_refl _)]

/-! ### Claim C1 — the retail MAC versus the spec formula -/

set_option maxRecDepth 100000 in
/-- C1 counterexample: at the claim's own concrete input (MAC key 32 bytes
0xDD, meta 16 zero bytes, empty data) `SecureChannel::calculateMAC` returns
the constant 16 zero bytes — its guard fires because the padded empty data
encrypts to a single block — and this differs from the value of the spec's
formula (whose "second-to-last block" extraction, read with truncating
arithmetic, yields the single ciphertext block).  The claim that the MAC
"returns the second-to-last 16-byte block" for every data including the
empty string is therefore false. -/
theorem C1_counterexample :
    SecureChannel.calculateMAC (List.replicate 32 0xDD) (List.replicate 16 0) [] =
      List.replicate 16 0 ∧
    SecureChannel.calculateMAC (List.replicate 32 0xDD) (List.replicate 16 0) [] ≠
      macFormulaSpec (List.replicate 32 0xDD) (List.replicate 16 0) [] := by
  constructor
  · decide
  · decide

/-- C1 amended: for data of at least 16 bytes (padded data of at least two
blocks) `calculateMAC` computes exactly the spec's formula — 0x80-and-zeros
padding, meta encrypted under a zero IV, the last ciphertext block as the
data IV, and the second-to-last 16-byte block of the data ciphertext as the
MAC; for shorter data (the empty string included) it returns 16 zero bytes. -/
theorem C1_amended (key meta data : List Nat) :
    SecureChannel.calculateMAC key meta data =
      if 16 ≤ data.length then macFormulaSpec key meta data
      else List.replicate 16 0 := by
  have hpad : 16 - data.length % 16 - 1 = 16 - 1 - data.length % 16 := by omega
  simp only [SecureChannel.calculateMAC, macFormulaSpec, APDU.pad, hpad]
  set cMeta := aes256CbcEncrypt key (List.replicate 16 0) meta with hm
  set padded := data ++ 0x80 :: List.replicate (16 - 1 - data.length % 16) 0 with hp
  set ed := aes256CbcEncrypt key (cMeta.drop (cMeta.length - 16)) padded with he
  have hlenp : padded.length = data.length + 1 + (16 - 1 - data.length % 16) := by
    simp [hp]; omega
  have hEnc : ed.length = 16 * ((padded.length + 15) / 16) := by
    rw [he]; exact aes256CbcEncrypt_length _ _ _
  by_cases h : 16 ≤ data.length
  · have hg : ¬ ed.length < 32 := by rw [hEnc, hlenp]; omega
    rw [if_neg hg, if_pos h]
  · have hg : ed.length < 32 := by rw [hEnc, hlenp]; omega
    rw [if_pos hg, if_neg h]

/-! ### Claim C2 — IV chaining in SecureChannel::send -/

instance {ε α : Type} [DecidableEq ε] [DecidableEq α] : DecidableEq (Except ε α)
  | .ok a, .ok b =>
    if h : a = b then .isTrue (by rw [h]) else .isFalse (by intro hh; cases hh; exact h rfl)
  | .error e, .error f =>
    if h : e = f then .isTrue (by rw [h]) else .isFalse (by intro hh; cases hh; exact h rfl)
  | .ok _, .error _ => .isFalse (by intro hh; cases hh)
  | .error _, .ok _ => .isFalse (by intro hh; cases hh)

lemma Chan.transmit_eq (ch : Chan) (a : List Nat) :
    ch.transmit a =
      (ch.script.headD [],
       { ch with script := ch.script.tail, sent := ch.sent ++ [a] }) := by
  rcases ch with ⟨script, sent, sleeps⟩
  cases script <;> rfl

/-- C2: for every send on an open channel, the transmitted APDU carries
`reqMac || ciphertext` where `reqMac` is the MAC of the outgoing request
computed over the 16-byte metadata block — the session IV having been
overwritten with `reqMac` before transmission — and the final session IV
equals `reqMac` unless the response is successful, non-empty and
MAC-verified, in which case it equals the response MAC. -/
theorem C2_iv_chaining (st : SCState) (ch : Chan) (cmd : APDU.Command)
    (h : st.isOpen = true) :
    (SecureChannel.send st ch cmd).2.2.sent =
      ch.sent ++ [APDU.Command.serialize
        { cla := cmd.cla, ins := cmd.ins, p1 := cmd.p1, p2 := cmd.p2,
          data := SecureChannel.calculateMAC st.macKey
              ([cmd.cla, cmd.ins, cmd.p1, cmd.p2,
                ((SecureChannel.encrypt st cmd.data).length + 16) % 256] ++
               List.replicate 11 0) (SecureChannel.encrypt st cmd.data) ++
            SecureChannel.encrypt st cmd.data,
          le := cmd.le }] ∧
    (SecureChannel.send st ch cmd).2.1.iv =
      (let reqMac := SecureChannel.calculateMAC st.macKey
          ([cmd.cla, cmd.ins, cmd.p1, cmd.p2,
            ((SecureChannel.encrypt st cmd.data).length + 16) % 256] ++
           List.replicate 11 0) (SecureChannel.encrypt st cmd.data)
       let resp := APDU.Response.ofRaw (ch.script.headD [])
       if resp.isOK = true ∧ resp.data ≠ [] ∧ 16 ≤ resp.data.length ∧
          SecureChannel.calculateMAC st.macKey
            (resp.data.length % 256 :: List.replicate 15 0) (resp.data.drop 16) =
            resp.data.take 16
       then resp.data.take 16
       else reqMac) := by
  simp only [SecureChannel.send, h, if_true, Chan.transmit_eq]
  set encData := SecureChannel.encrypt st cmd.data with hE
  set meta := [cmd.cla, cmd.ins, cmd.p1, cmd.p2,
    (encData.length + 16) % 256] ++ List.replicate 11 0 with hM
  set reqMac := SecureChannel.calculateMAC st.macKey meta encData with hR
  set resp := APDU.Response.ofRaw (ch.script.headD []) with hresp
  refine ⟨?_, ?_⟩
  · split_ifs <;> rfl
  · by_cases h1 : resp.isOK = true ∧ resp.data ≠ []
    · by_cases h2 : resp.data.length < 16
      · rw [if_pos h1, if_pos h2,
          if_neg (fun hcond => absurd hcond.2.2.1 (by omega))]
      · by_cases h3 : SecureChannel.calculateMAC st.macKey
            (resp.data.length % 256 :: List.replicate 15 0) (resp.data.drop 16) =
            resp.data.take 16
        · rw [if_pos h1, if_neg h2, if_neg (fun hne => hne h3),
            if_pos ⟨h1.1, h1.2, by omega, h3⟩]
          exact h3
        · rw [if_pos h1, if_neg h2, if_pos h3,
            if_neg (fun hcond => h3 hcond.2.2.2)]
    · rw [if_neg h1, if_neg (fun hcond => h1 ⟨hcond.1, hcond.2.1⟩)]

/-- Concrete session state for the C2 witness. -/
def c2St : SCState :=
  { iv := List.replicate 16 7, encKey := List.replicate 32 5,
    macKey := List.replicate 32 6, isOpen := true }

/-- Concrete command for the C2 witness. -/
def c2Cmd : APDU.Command := { cla := 0x80, ins := 0x20, p1 := 0, p2 := 0,
                              data := [0x31, 0x32, 0x33, 0x34, 0x35, 0x36] }

/-- C2 witness: the theorem applied at a concrete open session. -/
theorem C2_iv_chaining_witness :
    c2St.isOpen = true ∧
    ((SecureChannel.send c2St { script := [[0x90, 0x00]] } c2Cmd).2.2.sent =
      [] ++ [APDU.Command.serialize
        { cla := c2Cmd.cla, ins := c2Cmd.ins, p1 := c2Cmd.p1, p2 := c2Cmd.p2,
          data := SecureChannel.calculateMAC c2St.macKey
              ([c2Cmd.cla, c2Cmd.ins, c2Cmd.p1, c2Cmd.p2,
                ((SecureChannel.encrypt c2St c2Cmd.data).length + 16) % 256] ++
               List.replicate 11 0) (SecureChannel.encrypt c2St c2Cmd.data) ++
            SecureChannel.encrypt c2St c2Cmd.data,
          le := c2Cmd.le }] ∧
    (SecureChannel.send c2St { script := [[0x90, 0x00]] } c2Cmd).2.1.iv =
      (let reqMac := SecureChannel.calculateMAC c2St.macKey
          ([c2Cmd.cla, c2Cmd.ins, c2Cmd.p1, c2Cmd.p2,
            ((SecureChannel.encrypt c2St c2Cmd.data).length + 16) % 256] ++
           List.replicate 11 0) (SecureChannel.encrypt c2St c2Cmd.data)
       let resp := APDU.Response.ofRaw (([[0x90, 0x00]] : List (List Nat)).headD [])
       if resp.isOK = true ∧ resp.data ≠ [] ∧ 16 ≤ resp.data.length ∧
          SecureChannel.calculateMAC c2St.macKey
            (resp.data.length % 256 :: List.replicate 15 0) (resp.data.drop 16) =
            resp.data.take 16
       then resp.data.take 16
       else reqMac)) :=
  ⟨rfl, C2_iv_chaining c2St { script := [[0x90, 0x00]] } c2Cmd rfl⟩

/-! ### Claim C3 — the open flag versus MUTUALLY AUTHENTICATE -/

/-- Concrete pre-handshake command-set state for C3: an ECDH secret and an
ephemeral key pair seeded by SELECT. -/
def c3Cs : CSState :=
  { sc := { secret := List.replicate 32 0x11, rawPublicKeyData := List.replicate 65 4,
            hasPrivateKey := true, hasCardPublicKey := true } }

/-- C3 scripted card: OPEN SECURE CHANNEL succeeds with a 48-byte
`salt || iv` payload, then MUTUALLY AUTHENTICATE fails with SW 0x6985. -/
def c3Ch : Chan := { script := [List.replicate 48 0x33 ++ [0x90, 0x00], [0x69, 0x85]] }

/-- Concrete pairing info for C3. -/
def c3Pi : PairingInfo := { key := List.replicate 32 0x22, index := 0 }

set_option maxRecDepth 100000 in
set_option maxHeartbeats 4000000 in
/-- C3 counterexample: running `openSecureChannel` against a card whose
MUTUALLY AUTHENTICATE fails leaves the secure channel OPEN — `is_open`
became true when `SecureChannel::init` installed the session keys, before
mutual authentication, so a reachable state between key derivation and MA
success has the channel open, contradicting the claim. -/
theorem C3_counterexample :
    (CommandSet.openSecureChannel c3Cs c3Ch (List.replicate 32 0x44) c3Pi).1 =
      .ok false ∧
    (CommandSet.openSecureChannel c3Cs c3Ch (List.replicate 32 0x44) c3Pi).2.1.lastError =
      "Mutual authentication failed" ∧
    (CommandSet.openSecureChannel c3Cs c3Ch (List.replicate 32 0x44) c3Pi).2.1.sc.isOpen =
      true := by
  refine ⟨by decide, by decide, by decide⟩

/-- The MAC of the outgoing request, as computed inside `SecureChannel::send`
from the pre-send state. -/
def reqMacOf (st : SCState) (cmd : APDU.Command) : List Nat :=
  SecureChannel.calculateMAC st.macKey
    ([cmd.cla, cmd.ins, cmd.p1, cmd.p2,
      ((SecureChannel.encrypt st cmd.data).length + 16) % 256] ++
     List.replicate 11 0) (SecureChannel.encrypt st cmd.data)

/-- The wire APDU transmitted by `SecureChannel::send` for a command. -/
def wireOf (st : SCState) (cmd : APDU.Command) : List Nat :=
  APDU.Command.serialize
    { cla := cmd.cla, ins := cmd.ins, p1 := cmd.p1, p2 := cmd.p2,
      data := reqMacOf st cmd ++ SecureChannel.encrypt st cmd.data, le := cmd.le }

/-- On an open channel whose next scripted response has a non-success SW,
`transmitChecked` returns false, stores the formatted APDU error, advances
the IV to the request MAC and transmits exactly the one wire APDU. -/
lemma transmitChecked_not_ok (cs : CSState) (ch : Chan) (cmd : APDU.Command)
    (hOpen : cs.sc.isOpen = true) (r : List Nat) (rest : List (List Nat))
    (hscript : ch.script = r :: rest)
    (hnok : (APDU.Response.ofRaw r).isOK = false) :
    CommandSet.transmitChecked cs ch cmd =
      (.ok false,
       { cs with sc := { cs.sc with iv := reqMacOf cs.sc cmd },
                 lastError := "APDU error: SW=" ++ toHex4 (APDU.Response.ofRaw r).sw },
       { ch with script := rest, sent := ch.sent ++ [wireOf cs.sc cmd] }) := by
  simp only [CommandSet.transmitChecked, SecureChannel.send, hOpen, if_true,
    Chan.transmit_eq, hscript, List.headD_cons, List.tail_cons, hnok,
    Bool.false_eq_true, false_and, if_false, CommandSet.checkOK,
    reqMacOf, wireOf, ite_false, ite_true]

/-- C3 amended: the open flag is initially false, but it transitions to true
when `SecureChannel::init` installs the session keys derived from the OPEN
SECURE CHANNEL response — before MUTUALLY AUTHENTICATE runs — and a failed
mutual authentication returns false yet leaves the channel open. -/
theorem C3_amended :
    (({} : SCState).isOpen = false) ∧
    (∀ (st : SCState) (iv k m : List Nat), (SecureChannel.init st iv k m).isOpen = true) ∧
    (∀ (cs : CSState) (ch : Chan) (chall : List Nat) (pinfo : PairingInfo)
       (r1 r2 : List Nat) (rest : List (List Nat)),
       ch.script = r1 :: r2 :: rest →
       pinfo.isValid = true →
       cs.sc.rawPublicKeyData ≠ [] →
       (APDU.Response.ofRaw r1).isOK = true →
       48 ≤ (APDU.Response.ofRaw r1).data.length →
       (APDU.Response.ofRaw r2).isOK = false →
       (CommandSet.openSecureChannel cs ch chall pinfo).1 = .ok false ∧
       (CommandSet.openSecureChannel cs ch chall pinfo).2.1.sc.isOpen = true ∧
       (CommandSet.openSecureChannel cs ch chall pinfo).2.1.lastError =
         "Mutual authentication failed") := by
  refine ⟨rfl, fun st iv k m => rfl, ?_⟩
  intro cs ch chall pinfo r1 r2 rest hscript hvalid hpub h1ok h1len h2ok
  have h48 : ¬ ((APDU.Response.ofRaw r1).data.length < 48) := by omega
  refine ⟨?_, ?_, ?_⟩ <;>
  · simp only [CommandSet.openSecureChannel, hvalid, hpub, Chan.transmit_eq, hscript,
      List.headD_cons, List.tail_cons, CommandSet.checkOK, h1ok, h48,
      not_true, not_false_iff, if_true, if_false, ite_true, ite_false, ne_eq,
      not_false_eq_true, not_true_eq_false, CommandSet.mutualAuthenticate]
    rw [transmitChecked_not_ok _ _ _ rfl r2 rest rfl h2ok]
    rfl

/-- C3 amended witness: the hypotheses hold at the concrete C3 scenario. -/
theorem C3_amended_witness :
    (c3Ch.script = (List.replicate 48 0x33 ++ [0x90, 0x00]) :: [0x69, 0x85] :: [] ∧
     c3Pi.isValid = true ∧
     c3Cs.sc.rawPublicKeyData ≠ [] ∧
     (APDU.Response.ofRaw (List.replicate 48 0x33 ++ [0x90, 0x00])).isOK = true ∧
     48 ≤ (APDU.Response.ofRaw (List.replicate 48 0x33 ++ [0x90, 0x00])).data.length ∧
     (APDU.Response.ofRaw [0x69, 0x85]).isOK = false) ∧
    ((CommandSet.openSecureChannel c3Cs c3Ch (List.replicate 32 0x55) c3Pi).1 = .ok false ∧
     (CommandSet.openSecureChannel c3Cs c3Ch (List.replicate 32 0x55) c3Pi).2.1.sc.isOpen = true ∧
     (CommandSet.openSecureChannel c3Cs c3Ch (List.replicate 32 0x55) c3Pi).2.1.lastError =
       "Mutual authentication failed") :=
  ⟨⟨by decide, by decide, by decide, by decide, by decide, by decide⟩,
   C3_amended.2.2 c3Cs c3Ch (List.replicate 32 0x55) c3Pi
     (List.replicate 48 0x33 ++ [0x90, 0x00]) [0x69, 0x85] []
     (by decide) (by decide) (by decide) (by decide) (by decide) (by decide)⟩

/-! ### Claim C4 — the wrong-PIN status-word classification -/

/-- Concrete open session for the C4 evaluation. -/
def c4Cs : CSState :=
  { sc := { iv := List.replicate 16 2, encKey := List.replicate 32 1,
            macKey := List.replicate 32 9, isOpen := true } }

/-- Concrete PIN bytes "123456". -/
def c4Pin : List Nat := [0x31, 0x32, 0x33, 0x34, 0x35, 0x36]

set_option maxRecDepth 100000 in
/-- C4: the code classifies wrong-PIN responses with
`(sw & 0x63C0) == 0x63C0`, not the claim's `(sw & 0xFFF0) == 0x63C0`
(which matches the source's own comment "SW1=0x63, SW2=0xCX").  At
SW = 0x6BC5 — not of the form 63CX — `verifyPIN` nevertheless reports a
wrong PIN with 5 remaining attempts.  The claim's own example SW = 0x63C2
does yield 2 remaining attempts with the session left open. -/
theorem C4_code_bug :
    ((0x6BC5 &&& 0xFFF0) ≠ 0x63C0) ∧
    ((0x6BC5 &&& 0x63C0) = 0x63C0) ∧
    ((CommandSet.verifyPIN c4Cs { script := [[0x6B, 0xC5]] } c4Pin).1 = .ok false ∧
     (CommandSet.verifyPIN c4Cs { script := [[0x6B, 0xC5]] } c4Pin).2.1.remainingPINAttempts = 5 ∧
     (CommandSet.verifyPIN c4Cs { script := [[0x6B, 0xC5]] } c4Pin).2.1.lastError =
       "Wrong PIN. Remaining attempts: 5" ∧
     (CommandSet.verifyPIN c4Cs { script := [[0x6B, 0xC5]] } c4Pin).2.1.sc.isOpen = true) ∧
    ((CommandSet.verifyPIN c4Cs { script := [[0x63, 0xC2]] } c4Pin).1 = .ok false ∧
     (CommandSet.verifyPIN c4Cs { script := [[0x63, 0xC2]] } c4Pin).2.1.remainingPINAttempts = 2 ∧
     (CommandSet.verifyPIN c4Cs { script := [[0x63, 0xC2]] } c4Pin).2.1.sc.isOpen = true) := by
  exact ⟨by decide, by decide, ⟨by decide, by decide, by decide, by decide⟩,
         by decide, by decide, by decide⟩

/-! ### Claim C5 — what SecureChannel::reset clears -/

/-- C5 counterexample: after `reset` of a fully populated session, the ECDH
shared secret, the ephemeral private key and the raw public key all
survive — contradicting the claim that reset clears the handshake state. -/
theorem C5_counterexample :
    (SecureChannel.reset
      { secret := [0x42], rawPublicKeyData := [0x04], hasPrivateKey := true,
        hasCardPublicKey := true, iv := List.replicate 16 1,
        encKey := List.replicate 32 2, macKey := List.replicate 32 3,
        isOpen := true, openedIndex := 0 }).secret = [0x42] ∧
    (SecureChannel.reset
      { secret := [0x42], rawPublicKeyData := [0x04], hasPrivateKey := true,
        hasCardPublicKey := true, iv := List.replicate 16 1,
        encKey := List.replicate 32 2, macKey := List.replicate 32 3,
        isOpen := true, openedIndex := 0 }).hasPrivateKey = true ∧
    (SecureChannel.reset
      { secret := [0x42], rawPublicKeyData := [0x04], hasPrivateKey := true,
        hasCardPublicKey := true, iv := List.replicate 16 1,
        encKey := List.replicate 32 2, macKey := List.replicate 32 3,
        isOpen := true, openedIndex := 0 }).rawPublicKeyData = [0x04] := by
  decide

/-- C5 amended: `reset` clears the session keys, the IV, the open flag, the
opened index and the imported card public key, and deliberately retains the
ECDH shared secret, the client ephemeral private key and the raw public key
(they are needed for a later OPEN SECURE CHANNEL). -/
theorem C5_amended (s : SCState) :
    (SecureChannel.reset s).iv = [] ∧
    (SecureChannel.reset s).encKey = [] ∧
    (SecureChannel.reset s).macKey = [] ∧
    (SecureChannel.reset s).isOpen = false ∧
    (SecureChannel.reset s).openedIndex = -1 ∧
    (SecureChannel.reset s).hasCardPublicKey = false ∧
    (SecureChannel.reset s).secret = s.secret ∧
    (SecureChannel.reset s).hasPrivateKey = s.hasPrivateKey ∧
    (SecureChannel.reset s).rawPublicKeyData = s.rawPublicKeyData :=
  ⟨rfl, rfl, rfl, rfl, rfl, rfl, rfl, rfl, rfl⟩

/-! ### Claim C6 — multi-frame (SW1 = 0x61) handling -/

/-- C6 counterexample: the transport handler issues GET RESPONSE exactly
once and does not loop — when the additional response itself ends in
`61 10`, the combined response is returned still carrying SW1 = 0x61 and no
second GET RESPONSE is transmitted, contradicting "repeatedly … until a
non-0x61 SW terminates the loop". -/
theorem C6_counterexample :
    handleMultiFrameResponse ([0xAA] ++ [0x61, 0x20])
        { script := [[0xBB, 0x61, 0x10]] } =
      ([0xAA, 0xBB, 0x61, 0x10],
       { script := [], sent := [[0x00, 0xC0, 0x00, 0x00, 0x20]], sleeps := [] }) ∧
    ([0xAA, 0xBB, 0x61, 0x10] : List Nat).getD 2 0 = 0x61 := by
  refine ⟨by decide, by decide⟩

/-- C6 amended: on the Android NFC transport a response ending `61 n`
triggers exactly one GET RESPONSE (`00 C0 00 00 n`) whose whole reply is
concatenated to the first response minus its SW — without looping.  A
response not ending in 0x61 (or shorter than two bytes) is passed through
untouched.  Over the open secure channel the 0x61 path is not implemented at
all: the response is returned with its SW unchanged and only the single
command APDU is transmitted. -/
theorem C6_amended :
    (∀ (d : List Nat) (n : Nat) (a : List Nat) (rest sent0 : List (List Nat))
       (sleeps0 : List Nat),
       handleMultiFrameResponse (d ++ [0x61, n])
           { script := a :: rest, sent := sent0, sleeps := sleeps0 } =
         (d ++ a,
          { script := rest, sent := sent0 ++ [[0x00, 0xC0, 0x00, 0x00, n]],
            sleeps := sleeps0 })) ∧
    (∀ (resp : List Nat) (ch : Chan),
       resp.getD (resp.length - 2) 0 ≠ 0x61 →
       handleMultiFrameResponse resp ch = (resp, ch)) ∧
    (∀ (resp : List Nat) (ch : Chan), resp.length < 2 →
       handleMultiFrameResponse resp ch = (resp, ch)) ∧
    (∀ (st : SCState) (ch : Chan) (cmd : APDU.Command) (r : List Nat)
       (rest : List (List Nat)),
       st.isOpen = true → ch.script = r :: rest →
       (APDU.Response.ofRaw r).sw >>> 8 = 0x61 →
       (SecureChannel.send st ch cmd).1 = .ok (APDU.Response.ofRaw r) ∧
       (SecureChannel.send st ch cmd).2.2.sent = ch.sent ++ [wireOf st cmd]) := by
  refine ⟨?_, ?_, ?_, ?_⟩
  · intro d n a rest sent0 sleeps0
    have hlen : (d ++ [0x61, n]).length = d.length + 2 := by simp
    have hsw1 : (d ++ [0x61, n]).getD (d.length + 2 - 2) 0 = 0x61 := by
      rw [Nat.add_sub_cancel, List.getD_append_right _ _ _ _ (le_refl _),
        Nat.sub_self]
      rfl
    have hsw2 : (d ++ [0x61, n]).getD (d.length + 2 - 1) 0 = n := by
      rw [show d.length + 2 - 1 = d.length + 1 by omega,
        List.getD_append_right _ _ _ _ (by omega),
        show d.length + 1 - d.length = 1 by omega]
      rfl
    simp only [handleMultiFrameResponse, hlen, hsw1, hsw2, if_true, ite_true,
      eq_self_iff_true, Chan.transceive]
    rw [Nat.add_sub_cancel, List.take_left, if_neg (by omega)]
  · intro resp ch hne
    simp only [handleMultiFrameResponse]
    by_cases h1 : resp.length < 2
    · rw [if_pos h1]
    · rw [if_neg h1, if_neg hne]
  · intro resp ch hlt
    simp only [handleMultiFrameResponse]
    rw [if_pos hlt]
  · intro st ch cmd r rest hOpen hscript hsw1
    have hne : ¬ ((APDU.Response.ofRaw r).isOK = true ∧
        (APDU.Response.ofRaw r).data ≠ []) := by
      rintro ⟨hok, -⟩
      have hsw : (APDU.Response.ofRaw r).sw = 0x9000 := by
        simpa [APDU.Response.isOK] using hok
      rw [hsw] at hsw1
      simp [Nat.shiftRight_eq_div_pow] at hsw1
    constructor <;>
    · simp only [SecureChannel.send, hOpen, if_true, Chan.transmit_eq, hscript,
        List.headD_cons, List.tail_cons, hne, if_false, ite_false,
        wireOf, reqMacOf]

/-! ### Claim C7 — the 0x6f05 hot-plug retry -/

/-- `SecureChannel::send` on an open channel whose next scripted response has
a non-success SW: the response is returned unchanged, the IV advances to the
request MAC, and exactly the one wire APDU is transmitted. -/
lemma send_not_ok (st : SCState) (ch : Chan) (cmd : APDU.Command)
    (h : st.isOpen = true) (r : List Nat) (rest : List (List Nat))
    (hscript : ch.script = r :: rest)
    (hnok : (APDU.Response.ofRaw r).isOK = false) :
    SecureChannel.send st ch cmd =
      (.ok (APDU.Response.ofRaw r), { st with iv := reqMacOf st cmd },
       { ch with script := rest, sent := ch.sent ++ [wireOf st cmd] }) := by
  simp only [SecureChannel.send, h, if_true, Chan.transmit_eq, hscript,
    List.headD_cons, List.tail_cons, hnok, Bool.false_eq_true, false_and,
    if_false, ite_false, wireOf, reqMacOf]

/-- The channel component of `SecureChannel::send` on an open channel: the
script advances by one and exactly the wire APDU is appended, whatever the
outcome. -/
lemma send_chan (st : SCState) (ch : Chan) (cmd : APDU.Command)
    (h : st.isOpen = true) :
    (SecureChannel.send st ch cmd).2.2 =
      { ch with script := ch.script.tail, sent := ch.sent ++ [wireOf st cmd] } := by
  simp only [SecureChannel.send, h, if_true, Chan.transmit_eq, wireOf, reqMacOf]
  split_ifs <;> rfl

/-- Concrete open session for the C7 evaluation. -/
def c7Cs : CSState :=
  { sc := { iv := List.replicate 16 8, encKey := List.replicate 32 7,
            macKey := List.replicate 32 6, isOpen := true } }

set_option maxRecDepth 100000 in
set_option maxHeartbeats 4000000 in
/-- C7 counterexample: `getStatus`, issued as the very first post-open
command against a card answering SW 0x6f05, is NOT retried — exactly one
APDU is transmitted, no 50 ms sleep happens, and the error is surfaced —
contradicting the claim that the single retry applies to whichever post-open
command is issued first. -/
theorem C7_counterexample :
    (CommandSet.getStatus c7Cs { script := [[0x6f, 0x05]] } 0).1 = .ok {} ∧
    (CommandSet.getStatus c7Cs { script := [[0x6f, 0x05]] } 0).2.1.lastError =
      "APDU error: SW=6f05" ∧
    (CommandSet.getStatus c7Cs { script := [[0x6f, 0x05]] } 0).2.2.sent.length = 1 ∧
    (CommandSet.getStatus c7Cs { script := [[0x6f, 0x05]] } 0).2.2.sleeps = [] := by
  refine ⟨by decide, by decide, by decide, by decide⟩

/-- C7 amended: only `verifyPIN` carries the 0x6f05 retry: whenever its first
response has SW 0x6f05 (first post-open command or not) it sleeps 50 ms and
resends the same command exactly once — two APDUs in total; `getStatus` (and
every other command) surfaces the error after a single APDU with no sleep. -/
theorem C7_amended :
    (∀ (cs : CSState) (ch : Chan) (pin r1 r2 : List Nat) (rest : List (List Nat)),
       cs.sc.isOpen = true →
       ch.script = r1 :: r2 :: rest →
       (APDU.Response.ofRaw r1).sw = 0x6f05 →
       (CommandSet.verifyPIN cs ch pin).2.2.sent.length = ch.sent.length + 2 ∧
       (CommandSet.verifyPIN cs ch pin).2.2.sleeps = ch.sleeps ++ [50]) ∧
    (∀ (cs : CSState) (ch : Chan) (info : Nat) (r1 : List Nat) (rest : List (List Nat)),
       cs.sc.isOpen = true →
       ch.script = r1 :: rest →
       (APDU.Response.ofRaw r1).sw = 0x6f05 →
       (CommandSet.getStatus cs ch info).1 = .ok {} ∧
       (CommandSet.getStatus cs ch info).2.2.sent.length = ch.sent.length + 1 ∧
       (CommandSet.getStatus cs ch info).2.2.sleeps = ch.sleeps) := by
  constructor
  · intro cs ch pin r1 r2 rest hOpen hscript hsw
    have h1nok : (APDU.Response.ofRaw r1).isOK = false := by
      simp [APDU.Response.isOK, hsw]
    simp only [CommandSet.verifyPIN, hOpen, not_true, if_false, ite_false,
      not_true_eq_false, Bool.true_eq_false]
    rw [send_not_ok cs.sc ch _ hOpen r1 (r2 :: rest) hscript h1nok]
    simp only [hsw, if_true, ite_true, eq_self_iff_true]
    set cmdv := CommandSet.buildCommand APDU.INS_VERIFY_PIN 0 0 pin with hcmdv
    set stv := { cs.sc with iv := reqMacOf cs.sc cmdv } with hstv
    set chv := { ch with script := r2 :: rest, sent := ch.sent ++ [wireOf cs.sc cmdv], sleeps := ch.sleeps ++ [50] } with hchv
    rcases hsend2 : (SecureChannel.send stv chv cmdv) with ⟨res2, st2, ch2⟩
    have hsent : ch2.sent = (ch.sent ++ [wireOf cs.sc cmdv]) ++ [wireOf stv cmdv] := by
      rw [show ch2 = (res2, st2, ch2).2.2 from rfl, ← hsend2, send_chan stv chv cmdv hOpen]
    have hsl : ch2.sleeps = ch.sleeps ++ [50] := by
      rw [show ch2 = (res2, st2, ch2).2.2 from rfl, ← hsend2, send_chan stv chv cmdv hOpen]
    cases res2 with
    | error e => simp [hsent, hsl]
    | ok resp2 =>
      by_cases hwp : resp2.sw &&& 0x63C0 = 0x63C0
      · simp [hwp, hsent, hsl]
      · simp [hwp, hsent, hsl]
  · intro cs ch info r1 rest hOpen hscript hsw
    have h1nok : (APDU.Response.ofRaw r1).isOK = false := by
      simp [APDU.Response.isOK, hsw]
    simp only [CommandSet.getStatus, hOpen, not_true, if_false, ite_false,
      not_true_eq_false, Bool.true_eq_false]
    rw [send_not_ok cs.sc ch _ hOpen r1 rest hscript h1nok]
    simp [CommandSet.checkOK, h1nok]

/-- C7 amended witness: concrete retried VERIFY PIN and non-retried
GET STATUS exchanges. -/
theorem C7_amended_witness :
    (c7Cs.sc.isOpen = true ∧
     ({ script := [[0x6f, 0x05], [0x90, 0x00]] } : Chan).script =
       [0x6f, 0x05] :: [0x90, 0x00] :: [] ∧
     (APDU.Response.ofRaw [0x6f, 0x05]).sw = 0x6f05 ∧
     (CommandSet.verifyPIN c7Cs { script := [[0x6f, 0x05], [0x90, 0x00]] }
        [0x31, 0x32, 0x33, 0x34, 0x35, 0x36]).2.2.sent.length =
       ([] : List (List Nat)).length + 2 ∧
     (CommandSet.verifyPIN c7Cs { script := [[0x6f, 0x05], [0x90, 0x00]] }
        [0x31, 0x32, 0x33, 0x34, 0x35, 0x36]).2.2.sleeps = [] ++ [50]) ∧
    ((CommandSet.getStatus c7Cs { script := [[0x6f, 0x05]] } 0).1 = .ok {} ∧
     (CommandSet.getStatus c7Cs { script := [[0x6f, 0x05]] } 0).2.2.sent.length =
       ([] : List (List Nat)).length + 1 ∧
     (CommandSet.getStatus c7Cs { script := [[0x6f, 0x05]] } 0).2.2.sleeps = []) := by
  have h1 := C7_amended.1 c7Cs { script := [[0x6f, 0x05], [0x90, 0x00]] }
    [0x31, 0x32, 0x33, 0x34, 0x35, 0x36] [0x6f, 0x05] [0x90, 0x00] []
    (by decide) (by decide) (by decide)
  have h2 := C7_amended.2 c7Cs { script := [[0x6f, 0x05]] } 0 [0x6f, 0x05] []
    (by decide) (by decide) (by decide)
  exact ⟨⟨by decide, by decide, by decide, h1.1, h1.2⟩, h2.1, h2.2.1, h2.2.2⟩

/-- C6 amended witness: concrete single-GET-RESPONSE, pass-through and
secure-channel instances with the hypotheses discharged. -/
theorem C6_amended_witness :
    (handleMultiFrameResponse ([0xAA] ++ [0x61, 0x20])
        { script := [0xBB] :: [], sent := [], sleeps := [] } =
      ([0xAA] ++ [0xBB],
       { script := [], sent := [] ++ [[0x00, 0xC0, 0x00, 0x00, 0x20]], sleeps := [] })) ∧
    (([0x01, 0x90, 0x00] : List Nat).getD (([0x01, 0x90, 0x00] : List Nat).length - 2) 0 ≠ 0x61 ∧
     handleMultiFrameResponse [0x01, 0x90, 0x00] { script := [] } =
       ([0x01, 0x90, 0x00], { script := [] })) ∧
    (c7Cs.sc.isOpen = true ∧
     ({ script := [[0x61, 0x20]] } : Chan).script = [0x61, 0x20] :: [] ∧
     (APDU.Response.ofRaw [0x61, 0x20]).sw >>> 8 = 0x61 ∧
     (SecureChannel.send c7Cs.sc { script := [[0x61, 0x20]] }
        { cla := 0x80, ins := 0xC2, p1 := 0, p2 := 0 }).1 =
       .ok (APDU.Response.ofRaw [0x61, 0x20]) ∧
     (SecureChannel.send c7Cs.sc { script := [[0x61, 0x20]] }
        { cla := 0x80, ins := 0xC2, p1 := 0, p2 := 0 }).2.2.sent =
       ({ script := [[0x61, 0x20]] } : Chan).sent ++
         [wireOf c7Cs.sc { cla := 0x80, ins := 0xC2, p1 := 0, p2 := 0 }]) :=
  ⟨C6_amended.1 [0xAA] 0x20 [0xBB] [] [] [],
   ⟨by decide, C6_amended.2.1 [0x01, 0x90, 0x00] { script := [] } (by decide)⟩,
   by decide, by decide, by decide,
   (C6_amended.2.2.2 c7Cs.sc { script := [[0x61, 0x20]] }
     { cla := 0x80, ins := 0xC2, p1 := 0, p2 := 0 } [0x61, 0x20] []
     (by decide) (by decide) (by decide)).1,
   (C6_amended.2.2.2 c7Cs.sc { script := [[0x61, 0x20]] }
     { cla := 0x80, ins := 0xC2, p1 := 0, p2 := 0 } [0x61, 0x20] []
     (by decide) (by decide) (by decide)).2⟩

/-! ### Claim C8 — the BIP32 path parser -/

lemma segValue_eq_segValueSpec (seg : List Char) : segValue seg = segValueSpec seg := by
  cases seg with
  | nil => rfl
  | cons c cs =>
    simp only [segValue, segValueSpec]
    cases hh : (c :: cs).getLast? with
    | some x => rfl
    | none => exact absurd hh (Option.isSome_iff_ne_none.mp rfl)

lemma pathSegFold_go (segs : List (List Char)) :
    ∀ (vals a : List Nat), segValsSpec segs = some vals →
      segs.foldl pathSegStep a = a ++ (vals.map be32).flatten := by
  induction segs with
  | nil =>
    intro vals a h
    simp only [segValsSpec, Option.some.injEq] at h
    subst h
    simp
  | cons s ss ih =>
    intro vals a h
    simp only [segValsSpec] at h
    cases hv : segValueSpec s with
    | none => rw [hv] at h; cases h
    | some v =>
      rw [hv] at h
      cases hvs : segValsSpec ss with
      | none => rw [hvs] at h; cases h
      | some vs =>
        rw [hvs] at h
        injection h with h'
        subst h'
        rw [List.foldl_cons]
        have hstep : pathSegStep a s = a ++ be32 v := by
          simp [pathSegStep, segValue_eq_segValueSpec, hv]
        rw [hstep, ih vs (a ++ be32 v) hvs]
        simp

/-- The segment fold equals the spec serialization when every segment is a
valid component. -/
lemma pathSegFold_spec (segs : List (List Char)) (vals : List Nat)
    (h : segValsSpec segs = some vals) :
    pathSegFold segs = (vals.map be32).flatten := by
  rw [pathSegFold, pathSegFold_go segs vals [] h]
  simp

/-- C8 counterexample: the path `m/xyz/1` contains the invalid component
`xyz`, yet `parseDerivationPath` produces no error — it has no error channel
at all — and silently skips the component, returning exactly what the valid
path `m/1` returns, while the spec's parser rejects the path. -/
theorem C8_counterexample :
    parseDerivationPath ['m', '/', 'x', 'y', 'z', '/', '1'] =
      ([0, 0, 0, 1], APDU.P1DeriveKeyFromMaster) ∧
    parseDerivationPath ['m', '/', 'x', 'y', 'z', '/', '1'] =
      parseDerivationPath ['m', '/', '1'] ∧
    specParsePath ['m', '/', 'x', 'y', 'z', '/', '1'] = none := by
  refine ⟨by decide, by decide, by decide⟩

/-- C8 amended: on every path all of whose components are valid numbers, the
source parser agrees exactly with the spec's parser — prefix-determined
starting point, big-endian u32 serialization in order, the hardened bit set
iff the component ends in an apostrophe or `h`; but a component that is not a
valid number is silently skipped instead of producing an InvalidPath error. -/
theorem C8_amended :
    (∀ (path : List Char) (vals : List Nat) (sp : Nat),
       specParsePath path = some (vals, sp) →
       parseDerivationPath path = (vals, sp)) ∧
    (∀ (pre post : List (List Char)) (bad : List Char),
       segValue bad = none →
       pathSegFold (pre ++ bad :: post) = pathSegFold (pre ++ post)) := by
  constructor
  · intro path vals sp h
    unfold specParsePath at h
    unfold parseDerivationPath
    by_cases hm : startsWithChars ['m', '/'] (trimChars path) = true
    · simp only [hm, if_true, ite_true] at h ⊢
      by_cases he : (trimChars path).drop 2 = []
      · simp only [he, if_true, ite_true] at h ⊢
        injection h
      · simp only [he, if_false, ite_false] at h ⊢
        cases hsv : segValsSpec (splitOnSlash ((trimChars path).drop 2)) with
        | none => rw [hsv] at h; cases h
        | some vs =>
          rw [hsv] at h
          injection h with h'
          rw [← h', pathSegFold_spec _ _ hsv]
    · simp only [hm, if_false, ite_false, Bool.false_eq_true] at h ⊢
      by_cases hp : startsWithChars ['.', '.', '/'] (trimChars path) = true
      · simp only [hp, if_true, ite_true] at h ⊢
        by_cases he : (trimChars path).drop 3 = []
        · simp only [he, if_true, ite_true] at h ⊢
          injection h
        · simp only [he, if_false, ite_false] at h ⊢
          cases hsv : segValsSpec (splitOnSlash ((trimChars path).drop 3)) with
          | none => rw [hsv] at h; cases h
          | some vs =>
            rw [hsv] at h
            injection h with h'
            rw [← h', pathSegFold_spec _ _ hsv]
      · simp only [hp, if_false, ite_false, Bool.false_eq_true] at h ⊢
        by_cases hc : startsWithChars ['.', '/'] (trimChars path) = true
        · simp only [hc, if_true, ite_true] at h ⊢
          by_cases he : (trimChars path).drop 2 = []
          · simp only [he, if_true, ite_true] at h ⊢
            injection h
          · simp only [he, if_false, ite_false] at h ⊢
            cases hsv : segValsSpec (splitOnSlash ((trimChars path).drop 2)) with
            | none => rw [hsv] at h; cases h
            | some vs =>
              rw [hsv] at h
              injection h with h'
              rw [← h', pathSegFold_spec _ _ hsv]
        · simp only [hc, if_false, ite_false, Bool.false_eq_true] at h
          cases h
  · intro pre post bad hbad
    unfold pathSegFold
    have hgen : ∀ (pre' : List (List Char)) (post' : List (List Char)) (a : List Nat),
        (pre' ++ bad :: post').foldl pathSegStep a = (pre' ++ post').foldl pathSegStep a := by
      intro pre'
      induction pre' with
      | nil =>
        intro post' a
        simp only [List.nil_append, List.foldl_cons]
        rw [show pathSegStep a bad = a from by simp [pathSegStep, hbad]]
      | cons p ps ih =>
        intro post' a
        simp only [List.cons_append, List.foldl_cons]
        exact ih post' (pathSegStep a p)
    exact hgen pre post []

/-- Concrete path for the C8 witness: `m/44'/60h/0/1`. -/
def c8Path : List Char :=
  ['m', '/', '4', '4', '\'', '/', '6', '0', 'h', '/', '0', '/', '1']

/-- Expected serialization of `c8Path`. -/
def c8Vals : List Nat :=
  [0x80, 0, 0, 0x2C, 0x80, 0, 0, 0x3C, 0, 0, 0, 0, 0, 0, 0, 1]

/-- C8 amended witness: the agreement applied at `m/44'/60h/0/1` and the
skip property applied at a concrete invalid component. -/
theorem C8_amended_witness :
    specParsePath c8Path = some (c8Vals, 0) ∧
    parseDerivationPath c8Path = (c8Vals, 0) ∧
    segValue ['q'] = none ∧
    pathSegFold ([['1']] ++ ['q'] :: [['2']]) = pathSegFold ([['1']] ++ [['2']]) :=
  ⟨by decide, C8_amended.1 c8Path c8Vals 0 (by decide), by decide,
   C8_amended.2 [['1']] [['2']] ['q'] (by decide)⟩

/-! ### Claim C9 — the PAIR cryptogram gate -/

/-- C9: for every PAIR invocation whose step-1 response is successful with at
least 64 data bytes, either the card cryptogram (first 32 data bytes) equals
`SHA-256(PBKDF2(password) || challenge)`, or `pair` fails with the
cryptogram-mismatch error, returns an empty PairingInfo, and transmits only
the step-1 APDU — the step-2 PAIR APDU is never sent. -/
theorem C9_cryptogram_gate (cs : CSState) (ch : Chan)
    (challenge pwBytes r1 : List Nat) (rest : List (List Nat))
    (hscript : ch.script = r1 :: rest)
    (h1ok : (APDU.Response.ofRaw r1).isOK = true)
    (h1len : 64 ≤ (APDU.Response.ofRaw r1).data.length) :
    sha256 (derivePairingToken pwBytes ++ challenge) =
        (APDU.Response.ofRaw r1).data.take 32 ∨
      CommandSet.pair cs ch challenge pwBytes =
        ({}, { cs with lastError := "Invalid card cryptogram - wrong pairing password" },
         { ch with script := rest, sent := ch.sent ++ [(CommandSet.buildCommand APDU.INS_PAIR APDU.P1PairFirstStep 0 challenge).serialize] }) := by
  rcases Classical.em (sha256 (derivePairingToken pwBytes ++ challenge) =
      (APDU.Response.ofRaw r1).data.take 32) with hcg | hcg
  · exact Or.inl hcg
  · refine Or.inr ?_
    have h64 : ¬ ((APDU.Response.ofRaw r1).data.length < 64) := by omega
    simp only [CommandSet.pair, Chan.transmit_eq, hscript, List.headD_cons,
      List.tail_cons, CommandSet.checkOK, h1ok, if_true, ite_true, h64,
      if_false, ite_false, not_true, not_true_eq_false, Bool.true_eq_false]
    rw [if_pos hcg]

/-- Concrete step-1 response for the C9 witness. -/
def c9R1 : List Nat := List.replicate 64 7 ++ [0x90, 0x00]

/-- C9 witness: the theorem applied at a concrete successful 64-byte step-1
response. -/
theorem C9_cryptogram_gate_witness :
    (({ script := [c9R1] } : Chan).script = c9R1 :: [] ∧
     (APDU.Response.ofRaw c9R1).isOK = true ∧
     64 ≤ (APDU.Response.ofRaw c9R1).data.length) ∧
    (sha256 (derivePairingToken [0x70, 0x77] ++ List.replicate 32 1) =
        (APDU.Response.ofRaw c9R1).data.take 32 ∨
      CommandSet.pair {} { script := [c9R1] } (List.replicate 32 1) [0x70, 0x77] =
        ({}, { ({} : CSState) with lastError := "Invalid card cryptogram - wrong pairing password" },
         { ({ script := [c9R1] } : Chan) with script := [], sent := ({ script := [c9R1] } : Chan).sent ++ [(CommandSet.buildCommand APDU.INS_PAIR APDU.P1PairFirstStep 0 (List.replicate 32 1)).serialize] })) :=
  ⟨⟨by decide, by decide, by decide⟩,
   C9_cryptogram_gate {} { script := [c9R1] } (List.replicate 32 1) [0x70, 0x77]
     c9R1 [] (by decide) (by decide) (by decide)⟩

/-! ### Claim C10 — the secure-channel-not-open guard -/

/-- C10 counterexample: `sign` with an invalid hash length on a CLOSED
channel fails with the length-validation message, not with
"Secure channel not open" — the input validation runs first — though still
without transmitting any APDU. -/
theorem C10_counterexample :
    (({} : CSState).sc.isOpen = false) ∧
    CommandSet.sign {} { script := [] } [] =
      (.ok [], { ({} : CSState) with lastError := "Data must be 32 bytes (hash)" },
       { script := [] }) ∧
    ("Data must be 32 bytes (hash)" : String) ≠ "Secure channel not open" := by
  refine ⟨by decide, by decide, by decide⟩

/-- C10 amended: every secure-channel command, called with inputs passing its
own validation while the channel is not open, returns its failure value with
`m_lastError = "Secure channel not open"`, transmits nothing and leaves all
other state unchanged (for `loadSeed`, the three SIGN variants and
`setPinlessPath` the input validation runs first, so an invalid input yields
its validation message instead); `SecureChannel::send` itself throws
"Secure channel not open" without transmitting. -/
theorem C10_amended (cs : CSState) (ch : Chan) (st : SCState) (cmd : APDU.Command)
    (pin newPIN newPUK puk pw seed data32 dataStore : List Nat)
    (path mPath : List Char)
    (checksum dtype info index exportType : Nat) (derive makeCurrent : Bool)
    (hclosed : cs.sc.isOpen = false)
    (hseed : seed.length = 64) (hdata : data32.length = 32)
    (hpath : startsWithChars ['m', '/'] mPath = true)
    (hst : st.isOpen = false) :
    CommandSet.verifyPIN cs ch pin =
      (.ok false, { cs with lastError := "Secure channel not open" }, ch) ∧
    CommandSet.changePIN cs ch newPIN =
      (.ok false, { cs with lastError := "Secure channel not open" }, ch) ∧
    CommandSet.changePUK cs ch newPUK =
      (.ok false, { cs with lastError := "Secure channel not open" }, ch) ∧
    CommandSet.unblockPIN cs ch puk newPIN =
      (.ok false, { cs with lastError := "Secure channel not open" }, ch) ∧
    CommandSet.changePairingSecret cs ch pw =
      (.ok false, { cs with lastError := "Secure channel not open" }, ch) ∧
    CommandSet.generateKey cs ch =
      (.ok [], { cs with lastError := "Secure channel not open" }, ch) ∧
    CommandSet.generateMnemonic cs ch checksum =
      (.ok [], { cs with lastError := "Secure channel not open" }, ch) ∧
    CommandSet.loadSeed cs ch seed =
      (.ok [], { cs with lastError := "Secure channel not open" }, ch) ∧
    CommandSet.removeKey cs ch =
      (.ok false, { cs with lastError := "Secure channel not open" }, ch) ∧
    CommandSet.deriveKey cs ch path =
      (.ok false, { cs with lastError := "Secure channel not open" }, ch) ∧
    CommandSet.sign cs ch data32 =
      (.ok [], { cs with lastError := "Secure channel not open" }, ch) ∧
    CommandSet.signWithPath cs ch data32 path makeCurrent =
      (.ok [], { cs with lastError := "Secure channel not open" }, ch) ∧
    CommandSet.signPinless cs ch data32 =
      (.ok [], { cs with lastError := "Secure channel not open" }, ch) ∧
    CommandSet.setPinlessPath cs ch mPath =
      (.ok false, { cs with lastError := "Secure channel not open" }, ch) ∧
    CommandSet.storeData cs ch dtype dataStore =
      (.ok false, { cs with lastError := "Secure channel not open" }, ch) ∧
    CommandSet.getData cs ch dtype =
      (.ok [], { cs with lastError := "Secure channel not open" }, ch) ∧
    CommandSet.getStatus cs ch info =
      (.ok {}, { cs with lastError := "Secure channel not open" }, ch) ∧
    CommandSet.unpair cs ch index =
      (.ok false, { cs with lastError := "Secure channel not open" }, ch) ∧
    CommandSet.exportKey cs ch derive makeCurrent path exportType =
      (.ok [], { cs with lastError := "Secure channel not open" }, ch) ∧
    CommandSet.exportKeyExtended cs ch derive makeCurrent path exportType =
      (.ok [], { cs with lastError := "Secure channel not open" }, ch) ∧
    SecureChannel.send st ch cmd = (.error "Secure channel not open", st, ch) := by
  refine ⟨?_, ?_, ?_, ?_, ?_, ?_, ?_, ?_, ?_, ?_, ?_, ?_, ?_, ?_, ?_, ?_, ?_, ?_, ?_, ?_, ?_⟩
  · simp [CommandSet.verifyPIN, hclosed]
  · simp [CommandSet.changePIN, hclosed]
  · simp [CommandSet.changePUK, hclosed]
  · simp [CommandSet.unblockPIN, hclosed]
  · simp [CommandSet.changePairingSecret, hclosed]
  · simp [CommandSet.generateKey, hclosed]
  · simp [CommandSet.generateMnemonic, hclosed]
  · simp [CommandSet.loadSeed, hclosed, hseed]
  · simp [CommandSet.removeKey, hclosed]
  · simp [CommandSet.deriveKey, hclosed]
  · simp [CommandSet.sign, hclosed, hdata]
  · simp [CommandSet.signWithPath, hclosed, hdata]
  · simp [CommandSet.signPinless, hclosed, hdata]
  · simp [CommandSet.setPinlessPath, hclosed, hpath]
  · simp [CommandSet.storeData, hclosed]
  · simp [CommandSet.getData, hclosed]
  · simp [CommandSet.getStatus, hclosed]
  · simp [CommandSet.unpair, hclosed]
  · simp [CommandSet.exportKey, hclosed]
  · simp [CommandSet.exportKeyExtended, hclosed]
  · simp [SecureChannel.send, hst]

/-- Concrete closed-channel state and arguments for the C10 witness. -/
def c10Cs : CSState := {}

def c10Ch : Chan := { script := [] }

def c10Seed : List Nat := List.replicate 64 9

def c10Hash : List Nat := List.replicate 32 9

def c10MPath : List Char := ['m', '/', '1']

def c10Cmd : APDU.Command := { cla := 0x80, ins := 0x20, p1 := 0, p2 := 0 }

/-- C10 amended witness: the theorem applied at a concrete closed channel. -/
theorem C10_amended_witness :
    (c10Cs.sc.isOpen = false ∧ c10Seed.length = 64 ∧ c10Hash.length = 32 ∧
     startsWithChars ['m', '/'] c10MPath = true ∧ (({} : SCState)).isOpen = false) ∧
    (CommandSet.verifyPIN c10Cs c10Ch [] =
      (.ok false, { c10Cs with lastError := "Secure channel not open" }, c10Ch) ∧
    CommandSet.changePIN c10Cs c10Ch [] =
      (.ok false, { c10Cs with lastError := "Secure channel not open" }, c10Ch) ∧
    CommandSet.changePUK c10Cs c10Ch [] =
      (.ok false, { c10Cs with lastError := "Secure channel not open" }, c10Ch) ∧
    CommandSet.unblockPIN c10Cs c10Ch [] [] =
      (.ok false, { c10Cs with lastError := "Secure channel not open" }, c10Ch) ∧
    CommandSet.changePairingSecret c10Cs c10Ch [] =
      (.ok false, { c10Cs with lastError := "Secure channel not open" }, c10Ch) ∧
    CommandSet.generateKey c10Cs c10Ch =
      (.ok [], { c10Cs with lastError := "Secure channel not open" }, c10Ch) ∧
    CommandSet.generateMnemonic c10Cs c10Ch 4 =
      (.ok [], { c10Cs with lastError := "Secure channel not open" }, c10Ch) ∧
    CommandSet.loadSeed c10Cs c10Ch c10Seed =
      (.ok [], { c10Cs with lastError := "Secure channel not open" }, c10Ch) ∧
    CommandSet.removeKey c10Cs c10Ch =
      (.ok false, { c10Cs with lastError := "Secure channel not open" }, c10Ch) ∧
    CommandSet.deriveKey c10Cs c10Ch c10MPath =
      (.ok false, { c10Cs with lastError := "Secure channel not open" }, c10Ch) ∧
    CommandSet.sign c10Cs c10Ch c10Hash =
      (.ok [], { c10Cs with lastError := "Secure channel not open" }, c10Ch) ∧
    CommandSet.signWithPath c10Cs c10Ch c10Hash c10MPath false =
      (.ok [], { c10Cs with lastError := "Secure channel not open" }, c10Ch) ∧
    CommandSet.signPinless c10Cs c10Ch c10Hash =
      (.ok [], { c10Cs with lastError := "Secure channel not open" }, c10Ch) ∧
    CommandSet.setPinlessPath c10Cs c10Ch c10MPath =
      (.ok false, { c10Cs with lastError := "Secure channel not open" }, c10Ch) ∧
    CommandSet.storeData c10Cs c10Ch 0 [] =
      (.ok false, { c10Cs with lastError := "Secure channel not open" }, c10Ch) ∧
    CommandSet.getData c10Cs c10Ch 0 =
      (.ok [], { c10Cs with lastError := "Secure channel not open" }, c10Ch) ∧
    CommandSet.getStatus c10Cs c10Ch 0 =
      (.ok {}, { c10Cs with lastError := "Secure channel not open" }, c10Ch) ∧
    CommandSet.unpair c10Cs c10Ch 0 =
      (.ok false, { c10Cs with lastError := "Secure channel not open" }, c10Ch) ∧
    CommandSet.exportKey c10Cs c10Ch false false c10MPath 0 =
      (.ok [], { c10Cs with lastError := "Secure channel not open" }, c10Ch) ∧
    CommandSet.exportKeyExtended c10Cs c10Ch false false c10MPath 0 =
      (.ok [], { c10Cs with lastError := "Secure channel not open" }, c10Ch) ∧
    SecureChannel.send {} c10Ch c10Cmd = (.error "Secure channel not open", {}, c10Ch)) :=
  ⟨⟨by decide, by decide, by decide, by decide, by decide⟩,
   C10_amended c10Cs c10Ch {} c10Cmd [] [] [] [] [] c10Seed c10Hash []
     c10MPath c10MPath 4 0 0 0 0 false false
     (by decide) (by decide) (by decide) (by decide) (by decide)⟩

end Keycard
